import Mathlib

/-!
# starlink-pyndf: the HDS and NDF wrapper modules

A shallow embedding of `src/starlink/hds/hds.c` and `src/trm/ndf/ndf.c`.

Conventions of the embedding.

* A C `int` is an `Int`; the result of an `int` addition or subtraction on an
  argument or on a value written by the collaborator is passed through
  `wrapInt` (two's complement, 32 bits).  Loop counters and array positions
  are natural numbers.
* The Starlink libraries (HDS, NDF, MERS) are outside the repository.  Their
  answers are read from an `Env` record of functions, and every call made to
  them is appended to `World.calls`, so that what is handed to the
  collaborator can be stated.  The libraries follow the inherited status
  convention: a routine entered with a status other than `SAI__OK` returns at
  once and leaves the status alone.
* Arguments are the values delivered by `PyArg_ParseTuple`, except in
  `pyndf_xstat`, where the check of the argument tuple against the format is
  part of the embedding.  Reference counts are kept for the capsules that
  hold a locator, and for nothing else.
-/

namespace PyNdf

/-! ## Constants and machine integers -/

/-- Modelled from the spec: the header `sae_par.h` is missing from `src/`; the
spec calls a failure a non-zero status, so the success status is 0. -/
def SAI__OK : Int := 0

/-- Modelled from the spec: the header `sae_par.h` is missing from `src/`; a
failure is a non-zero status and this is the value Starlink gives to
`SAI__ERROR`. -/
def SAI__ERROR : Int := 148013867

/-- Largest value of a C `int`. -/
def INT_MAX : Int := 2147483647

/-- Smallest value of a C `int`. -/
def INT_MIN : Int := -2147483648

/-- Two's complement reduction of a mathematical integer to a C `int`. -/
def wrapInt (x : Int) : Int := (x + 2147483648) % 4294967296 - 2147483648

/-- Equality test `strncmp(a, b, n) == 0` on strings without a NUL. -/
def strncmpEq (a b : String) (n : Nat) : Bool := a.data.take n == b.data.take n

/-! ## Python side: exceptions, arrays, return values -/

/-- Exception classes raised by the two modules. -/
inductive PyExc where
  | PyExc_IOError
  | StarlinkHDSError
  | numpyError
  | PyExc_TypeError
  | PyExc_SystemError
  deriving DecidableEq, Repr

/-- Python error indicator as set by `PyErr_SetString`. -/
structure PyErr where
  exc : PyExc
  msg : String
  deriving DecidableEq, Repr

/-- Element types of numpy arrays used by the wrappers. -/
inductive NpyType where
  | NPY_INT
  | NPY_FLOAT
  | NPY_DOUBLE
  | NPY_SHORT
  | NPY_USHORT
  | NPY_BYTE
  | NPY_UBYTE
  | NPY_STRING
  deriving DecidableEq, Repr

/-- Width in bytes of one element of a fixed-width numpy type (`NPY_STRING`
has no fixed width; its descriptor starts with `elsize` 0). -/
def NpyType.elsize : NpyType → Nat
  | NPY_INT => 4
  | NPY_FLOAT => 4
  | NPY_DOUBLE => 8
  | NPY_SHORT => 2
  | NPY_USHORT => 2
  | NPY_BYTE => 1
  | NPY_UBYTE => 1
  | NPY_STRING => 0

/-- Numpy array: element type, element width, shape and the elements in
memory order. -/
structure NpyArray where
  typenum : NpyType
  elsize : Nat
  dims : List Int
  items : List Int
  deriving DecidableEq, Repr

/-- Raw `HDSLoc*` handle. -/
abbrev HDSLoc := Nat

/-- Pointer to mapped memory as handed out by `ndfMap`, with the number of
elements of the mapped region.  The C object holds the address only; the
count is kept so that statements can refer to the region. -/
structure MappedPtr where
  addr : Nat
  el : Int
  deriving DecidableEq, Repr

/-- Object made by `PyCObject_FromVoidPtr(ptr, PyDelLoc)` or
`NpyCapsule_FromVoidPtr(ptr, PyDelLoc)`: the pointer it holds and the number
of references to it.  The destructor runs when the last reference is given
up. -/
structure Capsule where
  ptr : HDSLoc
  refcnt : Nat
  deriving DecidableEq, Repr

/-- The C structure `HDSObject` of `hds.c`: its field `_locator` is
`Py_None`, here `none`, or a capsule. -/
structure HDSObject where
  _locator : Option Capsule
  deriving DecidableEq, Repr

/-- Value returned to Python by a wrapper.  The value `undefined` stands for
a run that has dereferenced a null pointer: the C code has no defined
behaviour from that point on, and nothing is stated about it. -/
inductive PyRet where
  | null
  | none
  | int (n : Int)
  | str (s : String)
  | hdsObject (self : HDSObject)
  | cobject (pobj : Capsule)
  | array (a : NpyArray)
  | mapped (ptrobj : MappedPtr) (el : Int)
  | undefined
  deriving DecidableEq, Repr

/-- Argument that Python hands to a wrapper. -/
inductive PyArg where
  | int (n : Int)
  | str (s : String)
  | obj
  deriving DecidableEq, Repr

/-! ## The collaborator -/

/-- One call made to the Starlink libraries, with the arguments handed over. -/
inductive Call where
  | errBegin
  | errLoad
  | errEnd
  | ndfDim (indf ndimx : Int)
  | ndfXname (indf n xnameLen : Int)
  | datCell (loc : HDSLoc) (ndim : Int) (sub : List Int)
  | datIndex (loc : HDSLoc) (index : Int)
  | datStruc (loc : HDSLoc)
  | datType (loc : HDSLoc)
  | datShape (loc : HDSLoc) (ndimx : Int)
  | datLen (loc : HDSLoc)
  | datGet (loc : HDSLoc) (type : String) (ndim : Int) (dims : List Int)
  | datNew (loc : HDSLoc) (name type : String) (ndim : Int) (dims : List Int)
  | datPut (loc : HDSLoc) (type : String) (ndim : Int) (dims : List Int) (value : NpyArray)
  | datAnnul (loc : HDSLoc)
  | datFind (loc : HDSLoc) (name : String)
  | ndfMap (indf : Int) (comp type mmod : String)
  | ndfUnmap (indf : Int) (comp : String)
  | ndfXnew (indf : Int) (xname type : String) (ndim : Int) (dim : List Int)
  | datName (loc : HDSLoc)
  | datNcomp (loc : HDSLoc)
  | datState (loc : HDSLoc)
  | datValid (loc : HDSLoc)
  | datPutC (loc : HDSLoc) (value : NpyArray) (len : Int)
  | ndfBegin
  | ndfEnd
  | ndfXstat (indf : Int) (xname : String)
  | ndfAstat (indf : Int) (comp : String) (iaxis : Int)
  | ndfAtype (indf : Int) (comp : String) (iaxis : Int)
  | ndfAmap (indf : Int) (comp : String) (iaxis : Int) (type mmod : String)
  | ndfAunmp (indf : Int) (comp : String) (iaxis : Int)
  deriving DecidableEq, Repr

/-- One message of the error stack: parameter name, message text, the length
`errLoad` reports for the text, and the status attached to the message. -/
structure Frame where
  param : String
  msg : String
  oplen : Nat
  status : Int
  deriving DecidableEq, Repr

/-- Answer of a collaborator routine: the status it sets, the values it
writes through its output pointers, and the messages it reports when the
status is bad. -/
structure Reply (α : Type) where
  status : Int
  value : α
  report : List Frame

/-- Dimension count and extents written by a shape query. -/
structure Dims where
  ndim : Int
  dim : List Int
  deriving DecidableEq, Repr, Inhabited

/-- Answers of the Starlink libraries and of numpy. -/
structure Env where
  ndfDim : Int → Int → Reply Dims
  ndfXname : Int → Int → Int → Reply String
  datCell : HDSLoc → Int → List Int → Reply HDSLoc
  datIndex : HDSLoc → Int → Reply HDSLoc
  datStruc : HDSLoc → Reply Int
  datType : HDSLoc → Reply String
  datShape : HDSLoc → Int → Reply Dims
  datLen : HDSLoc → Reply Nat
  datGet : HDSLoc → String → Int → List Int → Reply (List Int)
  datNew : HDSLoc → String → String → Int → List Int → Reply Unit
  datPut : HDSLoc → String → Int → List Int → NpyArray → Reply Unit
  /-- Answer of `datAnnul`; it may depend on the calls made before, since the
  library keeps track of the locators it has released. -/
  datAnnul : List Call → HDSLoc → Reply Unit
  datFind : HDSLoc → String → Reply HDSLoc
  ndfMap : Int → String → String → String → Reply (Nat × Int)
  ndfUnmap : Int → String → Reply Unit
  ndfXnew : Int → String → String → Int → List Int → Reply HDSLoc
  datName : HDSLoc → Reply String
  datNcomp : HDSLoc → Reply Int
  datState : HDSLoc → Reply Int
  /-- Answer of `datValid`; like `datAnnul` it may depend on the calls made
  before. -/
  datValid : List Call → HDSLoc → Reply Int
  datPutC : HDSLoc → NpyArray → Int → Reply Unit
  ndfEnd : Reply Unit
  ndfXstat : Int → String → Reply Int
  ndfAstat : Int → String → Int → Reply Int
  ndfAtype : Int → String → Int → Reply String
  /-- Answer of `ndfAmap`: the mapped values and their number. -/
  ndfAmap : Int → String → Int → String → String → Reply (List Int × Int)
  ndfAunmp : Int → String → Int → Reply Unit
  /-- Whether numpy can allocate an array of the given shape. -/
  npyAlloc : List Int → Bool
  /-- Elements after a forced cast from one element type to another. -/
  npyCast : NpyType → NpyType → List Int → List Int
  /-- Whether numpy can convert the value to an array of the type, with
  `NPY_FORCECAST` (`true`) or without; the conversion returns `NULL` when it
  cannot. -/
  npyConv : NpyArray → NpyType → Bool → Bool
  /-- Element width numpy chooses when it converts an array to strings. -/
  npyStrSize : NpyArray → Nat
  /-- Value of the constant `DAT__FILNF` of `dat_err.h`, a header that is not
  under `src/`. -/
  DAT__FILNF : Int

/-- Observable state: the calls made so far, the pending error messages, the
depth of error contexts and the Python error indicator. -/
structure World where
  calls : List Call
  ems : List Frame
  errLevel : Int
  pyerr : Option PyErr
  deriving DecidableEq, Repr

/-- Call of a collaborator routine under the inherited status convention. -/
def World.invoke {α : Type} (w : World) (status : Int) (c : Call) (r : Reply α) (dflt : α) :
    World × Int × α :=
  if status ≠ SAI__OK then
    ({ w with calls := w.calls ++ [c] }, status, dflt)
  else if r.status ≠ SAI__OK then
    ({ w with calls := w.calls ++ [c], ems := w.ems ++ r.report }, r.status, r.value)
  else
    ({ w with calls := w.calls ++ [c] }, SAI__OK, r.value)

/-- Effect of `PyErr_SetString`. -/
def World.setErr (w : World) (exc : PyExc) (msg : String) : World :=
  { w with pyerr := some ⟨exc, msg⟩ }

/-- Result of a C helper returning an `int` and updating `*status`. -/
structure IntOut where
  world : World
  status : Int
  ret : Int
  deriving DecidableEq, Repr

/-- Result of a wrapper: the state after it and the object returned. -/
structure PyOut where
  world : World
  ret : PyRet
  deriving DecidableEq, Repr

/-! ## `hds.c`: the error context -/

/-- Effect of `errBegin(&status)` entered with a good status: a new error
context is opened. -/
def errBegin (w : World) : World :=
  { w with calls := w.calls ++ [Call.errBegin], errLevel := w.errLevel + 1 }

/-- State of the drain loop of `raiseHDSException` when it stops: the frames
left on the stack, the composed string, the allocated size, the number of
`errLoad` calls made and the status. -/
structure Drained where
  ems : List Frame
  errstring : String
  stringlen : Nat
  pulls : Nat
  status : Int
  deriving DecidableEq, Repr

/-- Loop `while (*status != SAI__OK && errstring)` of `raiseHDSException`,
entered with a bad status.  Each turn calls `errLoad`, which hands over the
oldest pending frame with its status, or sets the status to `SAI__OK` when no
frame is left; `malloc` and `realloc` are taken to succeed. -/
def drainLoop : List Frame → String → Nat → Nat → Drained
  | [], errstring, stringlen, pulls => ⟨[], errstring, stringlen, pulls + 1, SAI__OK⟩
  | f :: fs, errstring, stringlen, pulls =>
    if f.status ≠ SAI__OK then
      drainLoop fs ((errstring ++ f.msg) ++ "\n") (stringlen + (f.oplen + 1)) (pulls + 1)
    else ⟨fs, errstring, stringlen, pulls + 1, f.status⟩

/-- Effect of `errEnd(status)`: the error context is closed and the status is
the one of the last message still pending, or `SAI__OK`. -/
def errEnd (w : World) : World × Int :=
  ({ w with calls := w.calls ++ [Call.errEnd], errLevel := w.errLevel - 1 },
    match w.ems.getLast? with
    | some f => f.status
    | none => SAI__OK)

/-- Embedding of `raiseHDSException` of `hds.c`. -/
def raiseHDSException (env : Env) (w : World) (status : Int) : IntOut :=
  if status = SAI__OK then ⟨w, status, 0⟩
  else
    let thisexc :=
      if status = env.DAT__FILNF then PyExc.PyExc_IOError else PyExc.StarlinkHDSError
    let d := drainLoop w.ems "" 1 0
    let w1 : World :=
      { w with calls := w.calls ++ List.replicate d.pulls Call.errLoad, ems := d.ems }
    let w2 := w1.setErr thisexc d.errstring
    let e := errEnd w2
    ⟨e.1, e.2, 1⟩

/-! ## Shared helpers -/

/-- Loop `for(i=0; i<ndim; i++) rdim[i] = sdata[ndim-i-1]+1;` of `pydat_cell`
(the same text in both files), with `ndim = PyArray_SIZE(sub)`. -/
def cellSubscripts (sdata : List Int) : List Int :=
  (List.range sdata.length).map fun i => wrapInt (sdata.getD (sdata.length - i - 1) 0 + 1)

/-- Loop `for(i=0; i<ndim; i++) rdim[i] = tdim[ndim-i-1];` of `pydat_get` and
`pydat_shape`. -/
def reverseDims (ndim : Int) (tdim : List Int) : List Int :=
  (List.range ndim.toNat).map fun i => tdim.getD (ndim.toNat - i - 1) 0

/-- The reversal loop applied to a whole shape, `ndim` being its length. -/
def reverseShape (s : List Int) : List Int := reverseDims s.length s

/-- Embedding of `checkHDStype` (the same text in `hds.c` and `ndf.c`). -/
def checkHDStype (type : String) : Int :=
  if type ≠ "_INTEGER" ∧ type ≠ "_REAL" ∧ type ≠ "_DOUBLE" ∧
      type ≠ "_LOGICAL" ∧ type ≠ "_WORD" ∧ type ≠ "UWORD" ∧
      type ≠ "_BYTE" ∧ type ≠ "_UBYTE" ∧ type ≠ "_CHAR" ∧
      strncmpEq type "_CHAR*" 6 = false then 0
  else 1

/-- Numpy conversion `PyArray_FROM_OTF(value, t, flags)` of an array-like
value, `forcecast` telling whether `NPY_FORCECAST` is among the flags
(`PyArray_FROM_OT(value, t)` is the call without it).  The result is `NULL`,
here `none`, when numpy cannot convert the value; otherwise it has the
element type `t` and the shape of `value`, and the elements are cast when
the type differs. -/
def PyArray_FROM_OTF (env : Env) (value : NpyArray) (t : NpyType) (forcecast : Bool) :
    Option NpyArray :=
  if env.npyConv value t forcecast = false then none
  else if value.typenum = t then some value
  else
    some
      { typenum := t
        elsize := if t = NpyType.NPY_STRING then env.npyStrSize value else t.elsize
        dims := value.dims
        items := env.npyCast value.typenum t value.items }

/-- The call `Py_BuildValue("O", pobj)`: for the single unit `O` the result
is the object itself, not a tuple, with one reference more. -/
def Py_BuildValue_O (pobj : Capsule) : Capsule := { pobj with refcnt := pobj.refcnt + 1 }

/-- `Py_DECREF` on a capsule whose destructor is `destr`: one reference
fewer, and the destructor runs on the pointer when none is left. -/
def Py_DECREF (destr : World → HDSLoc → World) (w : World) (c : Capsule) : World × Capsule :=
  if c.refcnt - 1 = 0 then (destr w c.ptr, { c with refcnt := 0 })
  else (w, { c with refcnt := c.refcnt - 1 })

/-- Conversion branch of `pydat_put` (the same text in both files): the numpy
type the value is converted to, or nothing when the function returns `NULL`. -/
def putTarget (type : String) : Option NpyType :=
  if type = "_INTEGER" then some NpyType.NPY_INT
  else if type = "_REAL" then some NpyType.NPY_FLOAT
  else if type = "_DOUBLE" then some NpyType.NPY_DOUBLE
  else if type = "_BYTE" then some NpyType.NPY_BYTE
  else if type = "_UBYTE" then some NpyType.NPY_UBYTE
  else if strncmpEq type "_CHAR*" 6 = true then some NpyType.NPY_STRING
  else none

/-- Conversion call of `pydat_put` (the same text in both files) for the
numpy type `t`: `PyArray_FROM_OT`, which has no `NPY_FORCECAST`, in the
`_CHAR*` branch and `PyArray_FROM_OTF` with `NPY_FORCECAST` in the others. -/
def putConvert (env : Env) (value : NpyArray) (t : NpyType) : Option NpyArray :=
  PyArray_FROM_OTF env value t (decide (t ≠ NpyType.NPY_STRING))

namespace ndf

/-! ## `ndf.c` -/

/-- The call `PyCObject_FromVoidPtr(ptr, PyDelLoc)`: a new object that holds
the pointer, with one reference. -/
def PyCObject_FromVoidPtr (ptr : HDSLoc) : Capsule := ⟨ptr, 1⟩

/-- Embedding of `tr_iaxis` of `ndf.c`. -/
def tr_iaxis (env : Env) (w : World) (indf iaxis status : Int) : IntOut :=
  if iaxis = -1 then ⟨w, status, 0⟩
  else
    let NDIMX : Int := 10
    let q := w.invoke status (Call.ndfDim indf NDIMX) (env.ndfDim indf NDIMX) default
    let ndim := q.2.2.ndim
    if q.2.1 ≠ SAI__OK then ⟨q.1, q.2.1, -1⟩
    else if iaxis < -1 ∨ iaxis > wrapInt (ndim - 1) then
      ⟨q.1.setErr PyExc.PyExc_IOError "tr_axis: axis number too out of range", SAI__ERROR, -1⟩
    else ⟨q.1, q.2.1, wrapInt (ndim - iaxis)⟩

/-- Embedding of `pydat_cell` of `ndf.c`; `sub` is the result of
`PyArray_ContiguousFromAny(osub, NPY_INT, 1, 1)`. -/
def pydat_cell (env : Env) (w : World) (pobj1 : HDSLoc) (sub : Option (List Int)) : PyOut :=
  match sub with
  | none => ⟨w.setErr PyExc.numpyError "", PyRet.null⟩
  | some sdata =>
    let ndim : Int := sdata.length
    let rdim := cellSubscripts sdata
    let q := w.invoke SAI__OK (Call.datCell pobj1 ndim rdim) (env.datCell pobj1 ndim rdim) 0
    if q.2.1 ≠ SAI__OK then ⟨q.1, PyRet.null⟩
    else ⟨q.1, PyRet.cobject (Py_BuildValue_O (PyCObject_FromVoidPtr q.2.2))⟩

/-- Embedding of `pyndf_xname` of `ndf.c`; `nlen` is the optional third
argument, 32 when absent.  The declaration `char xname[nlen+1]` is left
out: the embedding is for the values of `nlen` with `0 ≤ nlen + 1` in `int`;
for `nlen = INT_MAX` and for `nlen < -1` the C code has no defined behaviour
and the embedding does not describe it. -/
def pyndf_xname (env : Env) (w : World) (indf nex : Int) (nlenArg : Option Int) : PyOut :=
  let nlen := nlenArg.getD 32
  let q := w.invoke SAI__OK (Call.ndfXname indf (wrapInt (nex + 1)) (wrapInt (nlen + 1)))
    (env.ndfXname indf (wrapInt (nex + 1)) (wrapInt (nlen + 1))) ""
  if q.2.1 ≠ SAI__OK then ⟨q.1, PyRet.null⟩
  else ⟨q.1, PyRet.str q.2.2⟩

/-- Embedding of `pydat_put` of `ndf.c`; `dimobj` is the dimension array as
converted to `int` and `value` the array-like value.  The result of the
conversion is used without a test: when it is `NULL`, `PyArray_DATA`
dereferences a null pointer. -/
def pydat_put (env : Env) (w : World) (locobj : HDSLoc) (type : String) (ndim : Int)
    (dimobj : List Int) (value : NpyArray) : PyOut :=
  if checkHDStype type = 0 then ⟨w, PyRet.null⟩
  else
    match putTarget type with
    | none => ⟨w, PyRet.null⟩
    | some t =>
      match putConvert env value t with
      | none => ⟨w, PyRet.undefined⟩
      | some npyval =>
        let q :=
          if ndim > 0 then
            w.invoke SAI__OK (Call.datPut locobj type ndim dimobj npyval)
              (env.datPut locobj type ndim dimobj npyval) ()
          else
            w.invoke SAI__OK (Call.datPut locobj type 0 [] npyval)
              (env.datPut locobj type 0 [] npyval) ()
        if q.2.1 ≠ SAI__OK then ⟨q.1, PyRet.null⟩
        else ⟨q.1, PyRet.none⟩

/-- Embedding of `PyDelLoc` of `ndf.c`, the destructor attached to every
locator object; the `printf` is left out. -/
def PyDelLoc (env : Env) (w : World) (ptr : HDSLoc) : World :=
  (w.invoke SAI__OK (Call.datAnnul ptr) (env.datAnnul w.calls ptr) ()).1

/-- Embedding of `pydat_annul` of `ndf.c`; `pobj` is the pointer held by the
locator object. -/
def pydat_annul (env : Env) (w : World) (pobj : HDSLoc) : PyOut :=
  let q := w.invoke SAI__OK (Call.datAnnul pobj) (env.datAnnul w.calls pobj) ()
  if q.2.1 ≠ SAI__OK then ⟨q.1, PyRet.null⟩
  else ⟨q.1, PyRet.none⟩

/-- Array creation of `pydat_get`, as in `hds.c`: a fresh array, or `NULL`. -/
def newArray (env : Env) (rdim : List Int) (t : NpyType) (elsize : Nat) : Option NpyArray :=
  if env.npyAlloc rdim = true then some ⟨t, elsize, rdim, []⟩ else none

/-- Statements of `pydat_get` of `ndf.c` that follow the type dispatch: the
`NULL` test on the array, the call of `datGet`, and the `fail` label. -/
def pydat_get_read (env : Env) (w : World) (status : Int) (loc : HDSLoc) (typ_str : String)
    (ndim : Int) (tdim : List Int) (arr : Option NpyArray) : PyOut :=
  match arr with
  | none => ⟨w.setErr PyExc.numpyError "", PyRet.null⟩
  | some a =>
    let q := w.invoke status (Call.datGet loc typ_str ndim tdim)
      (env.datGet loc typ_str ndim tdim) []
    if q.2.1 ≠ SAI__OK then ⟨q.1, PyRet.null⟩
    else ⟨q.1, PyRet.array { a with items := q.2.2 }⟩

/-- Embedding of `pydat_get` of `ndf.c`.  In the `_CHAR` branch the array
`cdim`, whose first entry is `nbytes+1`, is filled but never used, so it is
left out. -/
def pydat_get (env : Env) (w : World) (loc : HDSLoc) : PyOut :=
  let q1 := w.invoke SAI__OK (Call.datStruc loc) (env.datStruc loc) 0
  if q1.2.1 ≠ SAI__OK then ⟨q1.1, PyRet.null⟩
  else if q1.2.2 ≠ 0 then
    ⟨q1.1.setErr PyExc.PyExc_IOError "dat_get error: cannot use on structures", PyRet.null⟩
  else
    let q2 := q1.1.invoke q1.2.1 (Call.datType loc) (env.datType loc) ""
    let NDIMX : Int := 7
    let q3 := q2.1.invoke q2.2.1 (Call.datShape loc NDIMX) (env.datShape loc NDIMX) default
    if q3.2.1 ≠ SAI__OK then ⟨q3.1, PyRet.null⟩
    else
      let typ_str := q2.2.2
      let ndim := q3.2.2.ndim
      let tdim := q3.2.2.dim
      let rdim := reverseDims ndim tdim
      let w3 := q3.1
      let st := q3.2.1
      if typ_str = "_INTEGER" ∨ typ_str = "_LOGICAL" then
        pydat_get_read env w3 st loc typ_str ndim tdim (newArray env rdim NpyType.NPY_INT 4)
      else if typ_str = "_REAL" then
        pydat_get_read env w3 st loc typ_str ndim tdim (newArray env rdim NpyType.NPY_FLOAT 4)
      else if typ_str = "_DOUBLE" then
        pydat_get_read env w3 st loc typ_str ndim tdim (newArray env rdim NpyType.NPY_DOUBLE 8)
      else if strncmpEq typ_str "_CHAR" 5 = true then
        let q4 := w3.invoke st (Call.datLen loc) (env.datLen loc) 0
        if q4.2.1 ≠ SAI__OK then ⟨q4.1, PyRet.null⟩
        else
          let nbytes := q4.2.2
          pydat_get_read env q4.1 q4.2.1 loc typ_str ndim tdim
            (newArray env rdim NpyType.NPY_STRING nbytes)
      else if typ_str = "_WORD" then
        pydat_get_read env w3 st loc typ_str ndim tdim (newArray env rdim NpyType.NPY_SHORT 2)
      else if typ_str = "_UWORD" then
        pydat_get_read env w3 st loc typ_str ndim tdim (newArray env rdim NpyType.NPY_USHORT 2)
      else if typ_str = "_BYTE" then
        pydat_get_read env w3 st loc typ_str ndim tdim (newArray env rdim NpyType.NPY_BYTE 1)
      else if typ_str = "_UBYTE" then
        pydat_get_read env w3 st loc typ_str ndim tdim (newArray env rdim NpyType.NPY_UBYTE 1)
      else
        ⟨w3.setErr PyExc.PyExc_IOError "dat_get: encountered an unimplemented type", PyRet.null⟩

/-- Embedding of `pyndf_map` of `ndf.c`. -/
def pyndf_map (env : Env) (w : World) (indf : Int) (comp type mmod : String) : PyOut :=
  if indf < 0 then ⟨w, PyRet.null⟩
  else if comp ≠ "DATA" ∧ comp ≠ "QUALITY" ∧ comp ≠ "VARIANCE" ∧ comp ≠ "ERROR" then
    ⟨w, PyRet.null⟩
  else if mmod ≠ "READ" ∧ mmod ≠ "UPDATE" ∧ mmod ≠ "WRITE" then ⟨w, PyRet.null⟩
  else if checkHDStype type = 0 then ⟨w, PyRet.null⟩
  else if comp = "QUALITY" ∧ type ≠ "_UBYTE" then ⟨w, PyRet.null⟩
  else
    let q := w.invoke SAI__OK (Call.ndfMap indf comp type mmod) (env.ndfMap indf comp type mmod)
      (0, 0)
    if q.2.1 ≠ SAI__OK then ⟨q.1, PyRet.null⟩
    else ⟨q.1, PyRet.mapped ⟨q.2.2.1, q.2.2.2⟩ q.2.2.2⟩

/-- Embedding of `pyndf_unmap` of `ndf.c`. -/
def pyndf_unmap (env : Env) (w : World) (indf : Int) (comp : String) : PyOut :=
  if indf < 0 then ⟨w, PyRet.null⟩
  else if comp ≠ "DATA" ∧ comp ≠ "QUALITY" ∧ comp ≠ "VARIANCE" ∧ comp ≠ "AXIS" ∧
      comp ≠ "*" then ⟨w, PyRet.null⟩
  else
    let q := w.invoke SAI__OK (Call.ndfUnmap indf comp) (env.ndfUnmap indf comp) ()
    if q.2.1 ≠ SAI__OK then ⟨q.1, PyRet.null⟩
    else ⟨q.1, PyRet.none⟩

/-- Embedding of `pyndf_xnew` of `ndf.c`; `ndim` is 0 and `dim` is absent when
the optional arguments are not given. -/
def pyndf_xnew (env : Env) (w : World) (indf : Int) (xname type : String) (ndim : Int)
    (dim : Option (List Int)) : PyOut :=
  let fin := fun (q : World × Int × HDSLoc) =>
    if q.2.1 ≠ SAI__OK then
      (⟨q.1.setErr PyExc.PyExc_IOError "status is not SAI__OK", PyRet.null⟩ : PyOut)
    else ⟨q.1, PyRet.cobject (Py_BuildValue_O (PyCObject_FromVoidPtr q.2.2))⟩
  if ndim ≠ 0 then
    if checkHDStype type = 0 then ⟨w, PyRet.null⟩
    else
      match dim with
      | none => ⟨w, PyRet.null⟩
      | some npydim =>
        if ndim < 1 then ⟨w, PyRet.null⟩
        else if (npydim.length : Int) ≠ ndim then ⟨w, PyRet.null⟩
        else
          fin (w.invoke SAI__OK (Call.ndfXnew indf xname type ndim npydim)
            (env.ndfXnew indf xname type ndim npydim) 0)
  else
    fin (w.invoke SAI__OK (Call.ndfXnew indf xname type 0 [])
      (env.ndfXnew indf xname type 0 []) 0)

/-- Embedding of `pydat_index` of `ndf.c`. -/
def pydat_index (env : Env) (w : World) (pobj : HDSLoc) (index : Int) : PyOut :=
  let q := w.invoke SAI__OK (Call.datIndex pobj (wrapInt (index + 1)))
    (env.datIndex pobj (wrapInt (index + 1))) 0
  if q.2.1 ≠ SAI__OK then ⟨q.1, PyRet.null⟩
  else ⟨q.1, PyRet.cobject (Py_BuildValue_O (PyCObject_FromVoidPtr q.2.2))⟩

/-- Embedding of `pydat_find` of `ndf.c`. -/
def pydat_find (env : Env) (w : World) (pobj1 : HDSLoc) (name : String) : PyOut :=
  let q := w.invoke SAI__OK (Call.datFind pobj1 name) (env.datFind pobj1 name) 0
  if q.2.1 ≠ SAI__OK then ⟨q.1, PyRet.null⟩
  else ⟨q.1, PyRet.cobject (Py_BuildValue_O (PyCObject_FromVoidPtr q.2.2))⟩

/-- Embedding of `pydat_valid` of `ndf.c`. -/
def pydat_valid (env : Env) (w : World) (pobj : HDSLoc) : PyOut :=
  let q := w.invoke SAI__OK (Call.datValid pobj) (env.datValid w.calls pobj) 0
  if q.2.1 ≠ SAI__OK then ⟨q.1, PyRet.null⟩
  else ⟨q.1, PyRet.int q.2.2⟩

/-- Embedding of `pyndf_begin` of `ndf.c`; `ndfBegin` takes no status. -/
def pyndf_begin (_env : Env) (w : World) : PyOut :=
  ⟨{ w with calls := w.calls ++ [Call.ndfBegin] }, PyRet.none⟩

/-- Embedding of `pyndf_end` of `ndf.c`; the status set by `ndfEnd` is not
looked at. -/
def pyndf_end (env : Env) (w : World) : PyOut :=
  let q := w.invoke SAI__OK Call.ndfEnd env.ndfEnd ()
  ⟨q.1, PyRet.none⟩

/-- Check made by `PyArg_ParseTuple` for a format of the required units `i`,
`s` and `O`: there are as many arguments as units, an `i` takes an integer
that fits a C `int`, an `s` takes a string and an `O` takes any object. -/
def parseUnits : List Char → List PyArg → Bool
  | [], [] => true
  | 'i' :: fs, PyArg.int n :: rest => decide (INT_MIN ≤ n ∧ n ≤ INT_MAX) && parseUnits fs rest
  | 's' :: fs, PyArg.str _ :: rest => parseUnits fs rest
  | 'O' :: fs, _ :: rest => parseUnits fs rest
  | _, _ => false

/-- Embedding of `pyndf_xstat` of `ndf.c`, from the argument tuple on.  The
format is `"isi"` with the two targets `&indf` and `&xname`; the text of the
error that `PyArg_ParseTuple` sets is not modelled, and the store of a third
value through the missing target is ignored. -/
def pyndf_xstat (env : Env) (w : World) (args : List PyArg) : PyOut :=
  if parseUnits "isi".data args = false then
    ⟨w.setErr PyExc.PyExc_TypeError "", PyRet.null⟩
  else
    match args with
    | PyArg.int indf :: PyArg.str xname :: _ =>
      let q := w.invoke SAI__OK (Call.ndfXstat indf xname) (env.ndfXstat indf xname) 0
      if q.2.1 ≠ SAI__OK then ⟨q.1, PyRet.null⟩
      else ⟨q.1, PyRet.int q.2.2⟩
    | _ => ⟨w.setErr PyExc.PyExc_TypeError "", PyRet.null⟩

/-- Result of `pyndf_aread`: the state, the object returned, and the index
`naxis-1` at which `idim` is read when the lookup is reached. -/
structure AreadOut where
  world : World
  ret : PyRet
  lookup : Option Int
  deriving DecidableEq, Repr

/-- Type dispatch of `pyndf_aread`: the numpy type and the value of `nbyte`,
or nothing for an unrecognised type. -/
def areadTarget (type : String) : Option (NpyType × Nat) :=
  if type = "_REAL" then some (NpyType.NPY_FLOAT, 4)
  else if type = "_DOUBLE" then some (NpyType.NPY_DOUBLE, 8)
  else if type = "_INTEGER" then some (NpyType.NPY_INT, 4)
  else none

/-- Embedding of `pyndf_aread` of `ndf.c`.  A read of `idim` outside the
array has no defined value; the model takes 0 for it and records the index. -/
def pyndf_aread (env : Env) (w : World) (indf : Int) (comp : String) (iaxis : Int) : AreadOut :=
  let t := tr_iaxis env w indf iaxis SAI__OK
  let naxis := t.ret
  let q1 := t.world.invoke t.status (Call.ndfAstat indf comp naxis)
    (env.ndfAstat indf comp naxis) 0
  if q1.2.1 ≠ SAI__OK then ⟨q1.1, PyRet.null, none⟩
  else if q1.2.2 = 0 then ⟨q1.1, PyRet.none, none⟩
  else
    let NDIMX : Int := 10
    let q2 := q1.1.invoke q1.2.1 (Call.ndfDim indf NDIMX) (env.ndfDim indf NDIMX) default
    if q2.2.1 ≠ SAI__OK then ⟨q2.1, PyRet.null, none⟩
    else
      let idim := q2.2.2.dim
      let idx := wrapInt (naxis - 1)
      let nelem : Int := if 0 ≤ idx then idim.getD idx.toNat 0 else 0
      let q3 := q2.1.invoke q2.2.1 (Call.ndfAtype indf comp naxis)
        (env.ndfAtype indf comp naxis) ""
      if q3.2.1 ≠ SAI__OK then ⟨q3.1, PyRet.null, some idx⟩
      else
        match areadTarget q3.2.2 with
        | none =>
          ⟨q3.1.setErr PyExc.PyExc_IOError "ndf_aread error: unrecognised data type",
            PyRet.null, some idx⟩
        | some (ty, nbyte) =>
          if env.npyAlloc [nelem] = false then
            ⟨q3.1.setErr PyExc.numpyError "", PyRet.null, some idx⟩
          else
            let q4 := q3.1.invoke q3.2.1 (Call.ndfAmap indf comp naxis q3.2.2 "READ")
              (env.ndfAmap indf comp naxis q3.2.2 "READ") ([], 0)
            if q4.2.1 ≠ SAI__OK then ⟨q4.1, PyRet.null, some idx⟩
            else if nelem ≠ q4.2.2.2 then
              ⟨q4.1.setErr PyExc.PyExc_IOError
                "ndf_aread error: number of elements different from number expected",
                PyRet.null, some idx⟩
            else
              let q5 := q4.1.invoke q4.2.1 (Call.ndfAunmp indf comp naxis)
                (env.ndfAunmp indf comp naxis) ()
              ⟨q5.1, PyRet.array ⟨ty, nbyte, [nelem], q4.2.2.1.take nelem.toNat⟩, some idx⟩

end ndf

namespace hds

/-! ## `hds.c` -/

/-- Embedding of `PyDelLoc_ptr` of `hds.c` (reached through `PyDelLoc`), the
destructor of the capsule that holds a locator; the `printf` is left out. -/
def PyDelLoc_ptr (env : Env) (w : World) (ptr : HDSLoc) : World :=
  (w.invoke SAI__OK (Call.datAnnul ptr) (env.datAnnul w.calls ptr) ()).1

/-- Embedding of `HDS_new` of `hds.c`, the allocation being taken to
succeed: `_locator` is `Py_None`. -/
def HDS_new : HDSObject := ⟨none⟩

/-- Argument object `args` of `HDS_init`: a tuple of capsules, or an object
that is no tuple. -/
inductive InitArgs where
  | tuple (items : List Capsule)
  | noTuple (obj : Capsule)
  deriving DecidableEq, Repr

/-- Embedding of `HDS_init` of `hds.c`, called without keywords.  The call
`PyArg_ParseTupleAndKeywords(args, kwds, "|O", ...)` fails with a
`SystemError` when `args` is no tuple and with a `TypeError` when the tuple
has more than one item; the texts of these errors are not modelled.  The
result is the state, the object and the value returned. -/
def HDS_init (env : Env) (w : World) (self : HDSObject) (args : InitArgs) :
    World × HDSObject × Int :=
  match args with
  | InitArgs.noTuple _ => (w.setErr PyExc.PyExc_SystemError "", self, -1)
  | InitArgs.tuple [] => (w, self, 0)
  | InitArgs.tuple [_locator] =>
    let w1 :=
      match self._locator with
      | none => w
      | some tmp => (Py_DECREF (PyDelLoc_ptr env) w tmp).1
    (w1, ⟨some { _locator with refcnt := _locator.refcnt + 1 }⟩, 0)
  | InitArgs.tuple _ => (w.setErr PyExc.PyExc_TypeError "", self, -1)

/-- The call `NpyCapsule_FromVoidPtr(locator, PyDelLoc)`: a new capsule that
holds the pointer, with one reference. -/
def NpyCapsule_FromVoidPtr (locator : HDSLoc) : Capsule := ⟨locator, 1⟩

/-- Embedding of `HDS_create_object` of `hds.c`.  The argument handed to
`HDS_init` is `Py_BuildValue("O", pobj)`, the capsule itself and no tuple;
the value returned by `HDS_init` is not looked at. -/
def HDS_create_object (env : Env) (w : World) (locator : HDSLoc) : World × HDSObject :=
  let self := HDS_new
  let pobj := NpyCapsule_FromVoidPtr locator
  let r := HDS_init env w self (InitArgs.noTuple (Py_BuildValue_O pobj))
  (r.1, r.2.1)

/-- Embedding of `HDS_retrieve_locator` of `hds.c` for an object that exists:
the pointer held by the capsule `_locator`, and the null pointer, here 0,
when `_locator` is no capsule.  The macro `NpyCapsule_AsVoidPtr` comes from
numpy; what it does to the error indicator in the second case is not
modelled. -/
def HDS_retrieve_locator (self : HDSObject) : HDSLoc :=
  match self._locator with
  | some c => c.ptr
  | none => 0

/-- Embedding of `pydat_transfer` of `hds.c`; `args` is the argument tuple.
The value returned by `HDS_init` is not looked at. -/
def pydat_transfer (env : Env) (w : World) (args : List Capsule) : World × HDSObject :=
  let newself := HDS_new
  let r := HDS_init env w newself (InitArgs.tuple args)
  (r.1, r.2.1)

/-- Embedding of `HDS_dealloc` of `hds.c`: `Py_XDECREF(self->_locator)`; for
`Py_None` only its count changes. -/
def HDS_dealloc (env : Env) (w : World) (self : HDSObject) : World :=
  match self._locator with
  | none => w
  | some c => (Py_DECREF (PyDelLoc_ptr env) w c).1

/-- Embedding of `pydat_cell` of `hds.c`; `self` is the locator recovered by
`HDS_retrieve_locator` and `sub` the result of
`PyArray_ContiguousFromAny(osub, NPY_INT, 1, 1)`. -/
def pydat_cell (env : Env) (w : World) (self : HDSLoc) (sub : Option (List Int)) : PyOut :=
  match sub with
  | none => ⟨w.setErr PyExc.numpyError "", PyRet.null⟩
  | some sdata =>
    let ndim : Int := sdata.length
    let rdim := cellSubscripts sdata
    let w1 := errBegin w
    let q := w1.invoke SAI__OK (Call.datCell self ndim rdim) (env.datCell self ndim rdim) 0
    if q.2.1 ≠ SAI__OK then ⟨(raiseHDSException env q.1 q.2.1).world, PyRet.null⟩
    else
      let c := HDS_create_object env q.1 q.2.2
      ⟨c.1, PyRet.hdsObject c.2⟩

/-- Embedding of `pydat_index` of `hds.c`. -/
def pydat_index (env : Env) (w : World) (self : HDSLoc) (index : Int) : PyOut :=
  let w1 := errBegin w
  let q := w1.invoke SAI__OK (Call.datIndex self (wrapInt (index + 1)))
    (env.datIndex self (wrapInt (index + 1))) 0
  let r := raiseHDSException env q.1 q.2.1
  if r.ret ≠ 0 then ⟨r.world, PyRet.null⟩
  else
    let c := HDS_create_object env r.world q.2.2
    ⟨c.1, PyRet.hdsObject c.2⟩

/-- Embedding of `pydat_shape` of `hds.c`. -/
def pydat_shape (env : Env) (w : World) (self : HDSLoc) : PyOut :=
  let NDIMX : Int := 7
  let w1 := errBegin w
  let q := w1.invoke SAI__OK (Call.datShape self NDIMX) (env.datShape self NDIMX) default
  let r := raiseHDSException env q.1 q.2.1
  if r.ret ≠ 0 then ⟨r.world, PyRet.null⟩
  else
    let ndim := q.2.2.ndim
    let tdim := q.2.2.dim
    if ndim = 0 then ⟨r.world, PyRet.none⟩
    else if env.npyAlloc [ndim] = false then ⟨r.world.setErr PyExc.numpyError "", PyRet.null⟩
    else ⟨r.world, PyRet.array ⟨NpyType.NPY_INT, 4, [ndim], reverseDims ndim tdim⟩⟩

/-- Embedding of `pydat_new` of `hds.c`; `dimobj` is the dimension array as
converted to `int`. -/
def pydat_new (env : Env) (w : World) (self : HDSLoc) (name type : String) (ndim : Int)
    (dimobj : List Int) : PyOut :=
  if checkHDStype type = 0 then ⟨w, PyRet.null⟩
  else
    let w1 := errBegin w
    let q :=
      if ndim > 0 then
        w1.invoke SAI__OK (Call.datNew self name type ndim dimobj)
          (env.datNew self name type ndim dimobj) ()
      else
        w1.invoke SAI__OK (Call.datNew self name type 0 []) (env.datNew self name type 0 []) ()
    let r := raiseHDSException env q.1 q.2.1
    if r.ret ≠ 0 then ⟨r.world, PyRet.null⟩
    else ⟨r.world, PyRet.none⟩

/-- Embedding of `pydat_put` of `hds.c`; `dimobj` is the dimension array as
converted to `int` and `value` the array-like value.  The result of the
conversion is used without a test: when it is `NULL`, `PyArray_DATA`
dereferences a null pointer. -/
def pydat_put (env : Env) (w : World) (self : HDSLoc) (type : String) (ndim : Int)
    (dimobj : List Int) (value : NpyArray) : PyOut :=
  if checkHDStype type = 0 then ⟨w, PyRet.null⟩
  else
    match putTarget type with
    | none => ⟨w, PyRet.null⟩
    | some t =>
      match putConvert env value t with
      | none => ⟨w, PyRet.undefined⟩
      | some npyval =>
        let w1 := errBegin w
        let q :=
          if ndim > 0 then
            w1.invoke SAI__OK (Call.datPut self type ndim dimobj npyval)
              (env.datPut self type ndim dimobj npyval) ()
          else
            w1.invoke SAI__OK (Call.datPut self type 0 [] npyval)
              (env.datPut self type 0 [] npyval) ()
        let r := raiseHDSException env q.1 q.2.1
        if r.ret ≠ 0 then ⟨r.world, PyRet.null⟩
        else ⟨r.world, PyRet.none⟩

/-- Array creation `PyArray_SimpleNew(ndim, rdim, t)` and, with the element
width of the descriptor, `PyArray_NewFromDescr`: a fresh array, or `NULL`. -/
def newArray (env : Env) (rdim : List Int) (t : NpyType) (elsize : Nat) : Option NpyArray :=
  if env.npyAlloc rdim = true then some ⟨t, elsize, rdim, []⟩ else none

/-- Statements of `pydat_get` that follow the type dispatch: the `NULL` test
on the array, the call of `datGet`, and the `fail` label. -/
def pydat_get_read (env : Env) (w : World) (status : Int) (self : HDSLoc) (typ_str : String)
    (ndim : Int) (tdim : List Int) (arr : Option NpyArray) : PyOut :=
  match arr with
  | none => ⟨(raiseHDSException env (w.setErr PyExc.numpyError "") status).world, PyRet.null⟩
  | some a =>
    let q := w.invoke status (Call.datGet self typ_str ndim tdim)
      (env.datGet self typ_str ndim tdim) []
    if q.2.1 ≠ SAI__OK then ⟨(raiseHDSException env q.1 q.2.1).world, PyRet.null⟩
    else ⟨q.1, PyRet.array { a with items := q.2.2 }⟩

/-- Embedding of `pydat_get` of `hds.c`.  In the `_CHAR` branch the array
`cdim`, whose first entry is `nbytes+1`, is filled but never used, so it is
left out. -/
def pydat_get (env : Env) (w : World) (self : HDSLoc) : PyOut :=
  let w1 := errBegin w
  let q1 := w1.invoke SAI__OK (Call.datStruc self) (env.datStruc self) 0
  let r1 := raiseHDSException env q1.1 q1.2.1
  if r1.ret ≠ 0 then ⟨r1.world, PyRet.null⟩
  else if q1.2.2 ≠ 0 then
    ⟨r1.world.setErr PyExc.PyExc_IOError "dat_get error: cannot use on structures", PyRet.null⟩
  else
    let q2 := r1.world.invoke r1.status (Call.datType self) (env.datType self) ""
    let NDIMX : Int := 7
    let q3 := q2.1.invoke q2.2.1 (Call.datShape self NDIMX) (env.datShape self NDIMX) default
    let r3 := raiseHDSException env q3.1 q3.2.1
    if r3.ret ≠ 0 then ⟨r3.world, PyRet.null⟩
    else
      let typ_str := q2.2.2
      let ndim := q3.2.2.ndim
      let tdim := q3.2.2.dim
      let rdim := reverseDims ndim tdim
      let w3 := r3.world
      let st := r3.status
      if typ_str = "_INTEGER" ∨ typ_str = "_LOGICAL" then
        pydat_get_read env w3 st self typ_str ndim tdim (newArray env rdim NpyType.NPY_INT 4)
      else if typ_str = "_REAL" then
        pydat_get_read env w3 st self typ_str ndim tdim (newArray env rdim NpyType.NPY_FLOAT 4)
      else if typ_str = "_DOUBLE" then
        pydat_get_read env w3 st self typ_str ndim tdim (newArray env rdim NpyType.NPY_DOUBLE 8)
      else if strncmpEq typ_str "_CHAR" 5 = true then
        let q4 := w3.invoke st (Call.datLen self) (env.datLen self) 0
        if q4.2.1 ≠ SAI__OK then ⟨(raiseHDSException env q4.1 q4.2.1).world, PyRet.null⟩
        else
          let nbytes := q4.2.2
          pydat_get_read env q4.1 q4.2.1 self typ_str ndim tdim
            (newArray env rdim NpyType.NPY_STRING nbytes)
      else if typ_str = "_WORD" then
        pydat_get_read env w3 st self typ_str ndim tdim (newArray env rdim NpyType.NPY_SHORT 2)
      else if typ_str = "_UWORD" then
        pydat_get_read env w3 st self typ_str ndim tdim (newArray env rdim NpyType.NPY_USHORT 2)
      else if typ_str = "_BYTE" then
        pydat_get_read env w3 st self typ_str ndim tdim (newArray env rdim NpyType.NPY_BYTE 1)
      else if typ_str = "_UBYTE" then
        pydat_get_read env w3 st self typ_str ndim tdim (newArray env rdim NpyType.NPY_UBYTE 1)
      else
        ⟨w3.setErr PyExc.PyExc_IOError "dat_get: encountered an unimplemented type", PyRet.null⟩

/-- Embedding of `pydat_annul` of `hds.c`.  The routine `datAnnul` clears the
local copy `loc` of the pointer; the capsule of `self` keeps the pointer. -/
def pydat_annul (env : Env) (w : World) (self : HDSLoc) : PyOut :=
  let w1 := errBegin w
  let q := w1.invoke SAI__OK (Call.datAnnul self) (env.datAnnul w1.calls self) ()
  let r := raiseHDSException env q.1 q.2.1
  if r.ret ≠ 0 then ⟨r.world, PyRet.null⟩
  else ⟨r.world, PyRet.none⟩

/-- Embedding of `pydat_find` of `hds.c`. -/
def pydat_find (env : Env) (w : World) (self : HDSLoc) (name : String) : PyOut :=
  let w1 := errBegin w
  let q := w1.invoke SAI__OK (Call.datFind self name) (env.datFind self name) 0
  let r := raiseHDSException env q.1 q.2.1
  if r.ret ≠ 0 then ⟨r.world, PyRet.null⟩
  else
    let c := HDS_create_object env r.world q.2.2
    ⟨c.1, PyRet.hdsObject c.2⟩

/-- Embedding of `pydat_name` of `hds.c`. -/
def pydat_name (env : Env) (w : World) (self : HDSLoc) : PyOut :=
  let w1 := errBegin w
  let q := w1.invoke SAI__OK (Call.datName self) (env.datName self) ""
  let r := raiseHDSException env q.1 q.2.1
  if r.ret ≠ 0 then ⟨r.world, PyRet.null⟩
  else ⟨r.world, PyRet.str q.2.2⟩

/-- Embedding of `pydat_ncomp` of `hds.c`. -/
def pydat_ncomp (env : Env) (w : World) (self : HDSLoc) : PyOut :=
  let w1 := errBegin w
  let q := w1.invoke SAI__OK (Call.datNcomp self) (env.datNcomp self) 0
  let r := raiseHDSException env q.1 q.2.1
  if r.ret ≠ 0 then ⟨r.world, PyRet.null⟩
  else ⟨r.world, PyRet.int q.2.2⟩

/-- Embedding of `pydat_state` of `hds.c`. -/
def pydat_state (env : Env) (w : World) (self : HDSLoc) : PyOut :=
  let w1 := errBegin w
  let q := w1.invoke SAI__OK (Call.datState self) (env.datState self) 0
  let r := raiseHDSException env q.1 q.2.1
  if r.ret ≠ 0 then ⟨r.world, PyRet.null⟩
  else ⟨r.world, PyRet.int q.2.2⟩

/-- Embedding of `pydat_struc` of `hds.c`. -/
def pydat_struc (env : Env) (w : World) (self : HDSLoc) : PyOut :=
  let w1 := errBegin w
  let q := w1.invoke SAI__OK (Call.datStruc self) (env.datStruc self) 0
  let r := raiseHDSException env q.1 q.2.1
  if r.ret ≠ 0 then ⟨r.world, PyRet.null⟩
  else ⟨r.world, PyRet.int q.2.2⟩

/-- Embedding of `pydat_type` of `hds.c`. -/
def pydat_type (env : Env) (w : World) (self : HDSLoc) : PyOut :=
  let w1 := errBegin w
  let q := w1.invoke SAI__OK (Call.datType self) (env.datType self) ""
  let r := raiseHDSException env q.1 q.2.1
  if r.ret ≠ 0 then ⟨r.world, PyRet.null⟩
  else ⟨r.world, PyRet.str q.2.2⟩

/-- Embedding of `pydat_valid` of `hds.c`. -/
def pydat_valid (env : Env) (w : World) (self : HDSLoc) : PyOut :=
  let w1 := errBegin w
  let q := w1.invoke SAI__OK (Call.datValid self) (env.datValid w1.calls self) 0
  let r := raiseHDSException env q.1 q.2.1
  if r.ret ≠ 0 then ⟨r.world, PyRet.null⟩
  else ⟨r.world, PyRet.int q.2.2⟩

/-- Embedding of `pydat_putc` of `hds.c`; `strobj` is the array-like value and
`strlen` the length argument.  The result of the conversion is used without
a test: when it is `NULL`, `PyArray_DATA` dereferences a null pointer. -/
def pydat_putc (env : Env) (w : World) (self : HDSLoc) (strobj : NpyArray) (strlen : Int) :
    PyOut :=
  match PyArray_FROM_OTF env strobj NpyType.NPY_STRING true with
  | none => ⟨w, PyRet.undefined⟩
  | some npystr =>
    let w1 := errBegin w
    let q := w1.invoke SAI__OK (Call.datPutC self npystr strlen)
      (env.datPutC self npystr strlen) ()
    let r := raiseHDSException env q.1 q.2.1
    if r.ret ≠ 0 then ⟨r.world, PyRet.null⟩
    else ⟨r.world, PyRet.none⟩

end hds

/-! ## Sample data -/

/-- State before any call: nothing called, no pending message, no error. -/
def World.init : World := ⟨[], [], 0, none⟩

/-- A store in which every routine succeeds; every object has the store-order
shape `d` and the type `typ`, and every primitive holds `items`. -/
def storeOf (d : List Int) (typ : String) (items : List Int) : Env where
  ndfDim := fun _ _ => ⟨SAI__OK, ⟨d.length, d⟩, []⟩
  ndfXname := fun _ _ _ => ⟨SAI__OK, "FITS", []⟩
  datCell := fun loc _ _ => ⟨SAI__OK, loc + 1, []⟩
  datIndex := fun loc _ => ⟨SAI__OK, loc + 1, []⟩
  datStruc := fun _ => ⟨SAI__OK, 0, []⟩
  datType := fun _ => ⟨SAI__OK, typ, []⟩
  datShape := fun _ _ => ⟨SAI__OK, ⟨d.length, d⟩, []⟩
  datLen := fun _ => ⟨SAI__OK, 4, []⟩
  datGet := fun _ _ _ _ => ⟨SAI__OK, items, []⟩
  datNew := fun _ _ _ _ _ => ⟨SAI__OK, (), []⟩
  datPut := fun _ _ _ _ _ => ⟨SAI__OK, (), []⟩
  datAnnul := fun _ _ => ⟨SAI__OK, (), []⟩
  datFind := fun loc _ => ⟨SAI__OK, loc + 1, []⟩
  ndfMap := fun _ _ _ _ => ⟨SAI__OK, (1000, (d.foldl (fun a b => a * b) 1)), []⟩
  ndfUnmap := fun _ _ => ⟨SAI__OK, (), []⟩
  ndfXnew := fun _ _ _ _ _ => ⟨SAI__OK, 9, []⟩
  datName := fun _ => ⟨SAI__OK, "DATA_ARRAY", []⟩
  datNcomp := fun _ => ⟨SAI__OK, 2, []⟩
  datState := fun _ => ⟨SAI__OK, 1, []⟩
  datValid := fun _ _ => ⟨SAI__OK, 1, []⟩
  datPutC := fun _ _ _ => ⟨SAI__OK, (), []⟩
  ndfEnd := ⟨SAI__OK, (), []⟩
  ndfXstat := fun _ _ => ⟨SAI__OK, 1, []⟩
  ndfAstat := fun _ _ _ => ⟨SAI__OK, 1, []⟩
  ndfAtype := fun _ _ _ => ⟨SAI__OK, "_REAL", []⟩
  ndfAmap := fun _ _ _ _ _ => ⟨SAI__OK, (items, items.length), []⟩
  ndfAunmp := fun _ _ _ => ⟨SAI__OK, (), []⟩
  npyAlloc := fun _ => true
  npyCast := fun _ _ xs => xs
  npyConv := fun _ _ _ => true
  npyStrSize := fun a => a.elsize
  DAT__FILNF := 147358563

/-- Store with one three-dimensional object of store-order shape 4, 5, 6. -/
def sampleEnv : Env := storeOf [4, 5, 6] "_REAL" []

/-- Buffer of six single precision values with the caller-order shape 2, 3. -/
def sixReals : NpyArray := ⟨NpyType.NPY_FLOAT, 4, [2, 3], [1, 2, 3, 4, 5, 6]⟩

/-- Scalar integer buffer holding 42. -/
def scalar42 : NpyArray := ⟨NpyType.NPY_INT, 4, [], [42]⟩

/-- Message reported by the library for a locator that is no longer valid. -/
def locatorInvalid : Frame := ⟨"DAT_ANNUL_ERR", "Locator invalid", 15, 147358515⟩

/-- A store like `sampleEnv` whose `datAnnul` remembers the locators it has
released: a second release of the same locator is reported as an error. -/
def trackingStore : Env :=
  { sampleEnv with
    datAnnul := fun calls loc =>
      if Call.datAnnul loc ∈ calls then ⟨147358515, (), [locatorInvalid]⟩
      else ⟨SAI__OK, (), []⟩ }

/-- A store like `sampleEnv` in which every object is a structure. -/
def structureStore : Env :=
  { sampleEnv with datStruc := fun _ => ⟨SAI__OK, 1, []⟩ }

/-- Message reported by the library for a component that does not exist. -/
def objectNotFound : Frame := ⟨"DAT_FIND_ERR", "Object not found", 16, 147358547⟩

/-- A store like `sampleEnv` in which no component can be found, no cell or
positional child exists and no name can be read. -/
def failingStore : Env :=
  { sampleEnv with
    datFind := fun _ _ => ⟨147358547, 0, [objectNotFound]⟩
    datCell := fun _ _ _ => ⟨147358547, 0, [objectNotFound]⟩
    datIndex := fun _ _ => ⟨147358547, 0, [objectNotFound]⟩
    datName := fun _ => ⟨147358547, "", [objectNotFound]⟩ }

/-- A store like `sampleEnv` whose locators stay valid when an NDF context
ends, as `sampleEnv` itself, and whose `ndfEnd` reports a failure. -/
def endFailsStore : Env :=
  { sampleEnv with ndfEnd := ⟨SAI__ERROR, (), [⟨"NDF_END_ERR", "ndfEnd failed", 13, SAI__ERROR⟩]⟩ }

/-- A store like `sampleEnv` whose locators are tied to the NDF context: once
`ndfEnd` has been called they report invalid. -/
def scopeStore : Env :=
  { sampleEnv with
    datValid := fun calls _ =>
      if Call.ndfEnd ∈ calls then ⟨SAI__OK, 0, []⟩ else ⟨SAI__OK, 1, []⟩ }

/-- A store like `sampleEnv` in which numpy can convert no value. -/
def noConvStore : Env := { sampleEnv with npyConv := fun _ _ _ => false }

/-- A value inside the range of a C `int` is left alone by the reduction. -/
theorem wrapInt_of_range (x : Int) (h0 : INT_MIN ≤ x) (h1 : x ≤ INT_MAX) : wrapInt x = x := by
  unfold wrapInt
  unfold INT_MIN at h0
  unfold INT_MAX at h1
  omega

theorem revLoop_eq (g : Int → Int) (s : List Int) :
    (List.range s.length).map (fun i => g (s.getD (s.length - i - 1) 0)) = (s.map g).reverse := by
  apply List.ext_getElem
  · simp
  · intro i h1 h2
    simp only [List.length_map, List.length_range] at h1
    have h3 : s.length - 1 - i < s.length := by omega
    have h4 : s.length - i - 1 = s.length - 1 - i := by omega
    simp [List.getElem_reverse, List.getD_eq_getElem?_getD, h4, List.getElem?_eq_getElem h3]

theorem cellSubscripts_eq (sub : List Int) (hsub : ∀ x ∈ sub, INT_MIN ≤ x ∧ x < INT_MAX) :
    cellSubscripts sub = (sub.map (fun x => x + 1)).reverse := by
  have h : (sub.map (fun x => wrapInt (x + 1))) = sub.map (fun x => x + 1) := by
    apply List.map_congr_left
    intro x hx
    have := hsub x hx
    apply wrapInt_of_range <;> simp only [INT_MIN, INT_MAX] at * <;> omega
  unfold cellSubscripts
  rw [revLoop_eq (fun x => wrapInt (x + 1)) sub, h]

theorem reverseDims_append (d pad : List Int) :
    reverseDims d.length (d ++ pad) = d.reverse := by
  unfold reverseDims
  have h := revLoop_eq (fun x => x) d
  simp only [List.map_id_fun, id_eq, List.map_id'] at h
  rw [← h]
  simp only [Int.toNat_ofNat]
  apply List.map_congr_left
  intro i hi
  simp only [List.mem_range] at hi
  have h3 : d.length - i - 1 < d.length := by omega
  simp [List.getD_eq_getElem?_getD, List.getElem?_append_left h3]

theorem reverseShape_eq (s : List Int) : reverseShape s = s.reverse := by
  unfold reverseShape
  simpa using reverseDims_append s []

theorem getD_reverse (s : List Int) (i : Nat) (h : i < s.length) :
    s.reverse.getD i 0 = s.getD (s.length - 1 - i) 0 := by
  have h3 : s.length - 1 - i < s.length := by omega
  have h4 : i < s.reverse.length := by simpa using h
  simp [List.getD_eq_getElem?_getD, List.getElem?_eq_getElem h3, List.getElem?_eq_getElem h4,
    List.getElem_reverse]

theorem raiseHDSException_ok (env : Env) (w : World) :
    raiseHDSException env w SAI__OK = ⟨w, SAI__OK, 0⟩ := by
  simp [raiseHDSException]

theorem raiseHDSException_calls (env : Env) (w : World) (status : Int) :
    ∃ rest, (raiseHDSException env w status).world.calls = w.calls ++ rest ∧
      ∀ c ∈ rest, c = Call.errLoad ∨ c = Call.errEnd := by
  by_cases h : status = SAI__OK
  · exact ⟨[], by simp [raiseHDSException, h]⟩
  · refine ⟨List.replicate (drainLoop w.ems "" 1 0).pulls Call.errLoad ++ [Call.errEnd], ?_, ?_⟩
    · simp [raiseHDSException, h, errEnd, World.setErr]
    · intro c hc
      simp only [List.mem_append, List.mem_replicate, List.mem_singleton] at hc
      rcases hc with hc | hc
      · exact Or.inl hc.2
      · exact Or.inr hc

theorem invoke_calls {α : Type} (w : World) (status : Int) (c : Call) (r : Reply α) (dflt : α) :
    (w.invoke status c r dflt).1.calls = w.calls ++ [c] := by
  unfold World.invoke
  split
  · rfl
  · split <;> rfl

/-- What `HDS_create_object` does: `HDS_init` refuses the capsule, which is no
tuple, so the object keeps `_locator = Py_None` and a `SystemError` is set. -/
theorem HDS_create_object_eq (env : Env) (w : World) (locator : HDSLoc) :
    hds.HDS_create_object env w locator =
      (w.setErr PyExc.PyExc_SystemError "", ⟨none⟩) := rfl

theorem tr_iaxis_sentinel (env : Env) (w : World) (indf status : Int) :
    ndf.tr_iaxis env w indf (-1) status = ⟨w, status, 0⟩ := by
  simp [ndf.tr_iaxis]

theorem tr_iaxis_in_range (env : Env) (w : World) (indf iaxis ndim : Int)
    (hok : (env.ndfDim indf 10).status = SAI__OK)
    (hnd : (env.ndfDim indf 10).value.ndim = ndim)
    (h1 : ndim ≤ INT_MAX) (ha : 0 ≤ iaxis) (hb : iaxis ≤ ndim - 1) :
    ndf.tr_iaxis env w indf iaxis SAI__OK =
      ⟨{ w with calls := w.calls ++ [Call.ndfDim indf 10] }, SAI__OK, ndim - iaxis⟩ := by
  have hw : wrapInt (ndim - 1) = ndim - 1 := by
    apply wrapInt_of_range <;> simp only [INT_MIN, INT_MAX] at * <;> omega
  have hw2 : wrapInt (ndim - iaxis) = ndim - iaxis := by
    apply wrapInt_of_range <;> simp only [INT_MIN, INT_MAX] at * <;> omega
  have hne : iaxis ≠ -1 := by omega
  have hin : ¬ (iaxis < -1 ∨ iaxis > ndim - 1) := by omega
  simp [ndf.tr_iaxis, World.invoke, hok, hnd, hw, hw2, hne, hin]

theorem tr_iaxis_out_of_range (env : Env) (w : World) (indf iaxis ndim : Int)
    (hok : (env.ndfDim indf 10).status = SAI__OK)
    (hnd : (env.ndfDim indf 10).value.ndim = ndim)
    (h0 : 0 ≤ ndim) (h1 : ndim ≤ INT_MAX) (hout : iaxis < -1 ∨ iaxis > ndim - 1) :
    ndf.tr_iaxis env w indf iaxis SAI__OK =
      ⟨{ w with calls := w.calls ++ [Call.ndfDim indf 10],
                pyerr := some ⟨PyExc.PyExc_IOError, "tr_axis: axis number too out of range"⟩ },
        SAI__ERROR, -1⟩ := by
  have hw : wrapInt (ndim - 1) = ndim - 1 := by
    apply wrapInt_of_range <;> simp only [INT_MIN, INT_MAX] at * <;> omega
  have hne : iaxis ≠ -1 := by omega
  simp [ndf.tr_iaxis, World.invoke, hok, hnd, hw, hne, hout, World.setErr]

/-- C1: when the dimension query of the NDF succeeds with `ndim` dimensions,
`tr_iaxis` returns 0 for the axis -1 without any call to the collaborator,
returns `ndim - iaxis` for an axis from 0 to `ndim - 1` with a good status and
no error raised, and fails (returns -1, sets the status to `SAI__ERROR` and
raises the out-of-range error) exactly when `iaxis < -1` or `iaxis > ndim - 1`. -/
theorem tr_iaxis_contract (env : Env) (w : World) (indf iaxis ndim : Int)
    (hok : (env.ndfDim indf 10).status = SAI__OK)
    (hnd : (env.ndfDim indf 10).value.ndim = ndim)
    (h0 : 0 ≤ ndim) (h1 : ndim ≤ INT_MAX) :
    (iaxis = -1 → (ndf.tr_iaxis env w indf iaxis SAI__OK).ret = 0 ∧
      (ndf.tr_iaxis env w indf iaxis SAI__OK).world = w) ∧
    (0 ≤ iaxis ∧ iaxis ≤ ndim - 1 →
      (ndf.tr_iaxis env w indf iaxis SAI__OK).ret = ndim - iaxis ∧
      (ndf.tr_iaxis env w indf iaxis SAI__OK).status = SAI__OK ∧
      (ndf.tr_iaxis env w indf iaxis SAI__OK).world.pyerr = w.pyerr) ∧
    (((ndf.tr_iaxis env w indf iaxis SAI__OK).ret = -1 ∧
      (ndf.tr_iaxis env w indf iaxis SAI__OK).status = SAI__ERROR ∧
      (ndf.tr_iaxis env w indf iaxis SAI__OK).world.pyerr =
        some ⟨PyExc.PyExc_IOError, "tr_axis: axis number too out of range"⟩) ↔
      (iaxis < -1 ∨ iaxis > ndim - 1)) := by
  refine ⟨?_, ?_, ?_⟩
  · intro h
    subst h
    simp [tr_iaxis_sentinel]
  · rintro ⟨ha, hb⟩
    simp [tr_iaxis_in_range env w indf iaxis ndim hok hnd h1 ha hb]
  · by_cases hm : iaxis = -1
    · subst hm
      simp [tr_iaxis_sentinel]
      omega
    · by_cases hin : iaxis < -1 ∨ iaxis > ndim - 1
      · simp [tr_iaxis_out_of_range env w indf iaxis ndim hok hnd h0 h1 hin, hin]
      · have ha : 0 ≤ iaxis := by omega
        have hb : iaxis ≤ ndim - 1 := by omega
        simp [tr_iaxis_in_range env w indf iaxis ndim hok hnd h1 ha hb, hin]
        intro h
        omega

/-- C1, at the store `sampleEnv` (three dimensions) and the axis 1. -/
theorem tr_iaxis_contract_witness :
    (sampleEnv.ndfDim 1 10).status = SAI__OK ∧ (sampleEnv.ndfDim 1 10).value.ndim = 3 ∧
    (0 : Int) ≤ 3 ∧ (3 : Int) ≤ INT_MAX ∧
    (ndf.tr_iaxis sampleEnv World.init 1 1 SAI__OK).ret = 3 - 1 :=
  ⟨rfl, rfl, by decide, by decide,
    ((tr_iaxis_contract sampleEnv World.init 1 1 3 rfl rfl (by decide) (by decide)).2.1
      ⟨by decide, by decide⟩).1⟩

/-- C2: for every dimension count `ndim` (the two ranges are empty unless
`ndim ≥ 1`), `tr_iaxis` maps the caller axes 0 to `ndim - 1` one-to-one onto
the store axes 1 to `ndim`, and it maps -1 to 0 whatever the NDF is. -/
theorem tr_iaxis_bijection (env : Env) (w : World) (indf ndim : Int)
    (hok : (env.ndfDim indf 10).status = SAI__OK)
    (hnd : (env.ndfDim indf 10).value.ndim = ndim)
    (h1 : ndim ≤ INT_MAX) :
    Set.BijOn (fun iaxis => (ndf.tr_iaxis env w indf iaxis SAI__OK).ret)
      (Set.Icc 0 (ndim - 1)) (Set.Icc 1 ndim) ∧
    ∀ (env2 : Env) (w2 : World) (indf2 : Int),
      (ndf.tr_iaxis env2 w2 indf2 (-1) SAI__OK).ret = 0 := by
  have key : ∀ i, 0 ≤ i → i ≤ ndim - 1 →
      (ndf.tr_iaxis env w indf i SAI__OK).ret = ndim - i := by
    intro i ha hb
    rw [tr_iaxis_in_range env w indf i ndim hok hnd h1 ha hb]
  refine ⟨⟨?_, ?_, ?_⟩, ?_⟩
  · intro i hi
    simp only [Set.mem_Icc] at hi ⊢
    rw [key i hi.1 hi.2]
    omega
  · intro i hi j hj hij
    simp only [Set.mem_Icc] at hi hj
    simp only [key i hi.1 hi.2, key j hj.1 hj.2] at hij
    omega
  · intro k hk
    simp only [Set.mem_Icc] at hk
    refine ⟨ndim - k, ?_, ?_⟩
    · simp only [Set.mem_Icc]
      omega
    · show (ndf.tr_iaxis env w indf (ndim - k) SAI__OK).ret = k
      rw [key (ndim - k) (by omega) (by omega)]
      omega
  · intro env2 w2 indf2
    rw [tr_iaxis_sentinel]

/-- C2, at the store `sampleEnv`, whose NDF has three dimensions. -/
theorem tr_iaxis_bijection_witness :
    (sampleEnv.ndfDim 1 10).status = SAI__OK ∧ (sampleEnv.ndfDim 1 10).value.ndim = 3 ∧
    (3 : Int) ≤ INT_MAX ∧
    Set.BijOn (fun iaxis => (ndf.tr_iaxis sampleEnv World.init 1 iaxis SAI__OK).ret)
      (Set.Icc 0 (3 - 1)) (Set.Icc 1 3) :=
  ⟨rfl, rfl, by decide,
    (tr_iaxis_bijection sampleEnv World.init 1 3 rfl rfl (by decide)).1⟩

/-- C3: for every index sequence `sub` whose entries are C `int` values with a
representable successor, the subscript array handed to `datCell` by the
`pydat_cell` of `hds.c` and by the one of `ndf.c` has the length of `sub`, and
its entry `i` is `sub[n-1-i] + 1`: the sequence reversed and made one-based. -/
theorem cell_subscripts_reversed_one_based (env : Env) (w : World) (loc : HDSLoc)
    (sub : List Int) (hsub : ∀ x ∈ sub, INT_MIN ≤ x ∧ x < INT_MAX) :
    (cellSubscripts sub).length = sub.length ∧
    (∀ i, i < sub.length →
      (cellSubscripts sub).getD i 0 = sub.getD (sub.length - 1 - i) 0 + 1) ∧
    cellSubscripts sub = (sub.map fun x => x + 1).reverse ∧
    (∃ rest, (hds.pydat_cell env w loc (some sub)).world.calls =
        w.calls ++ [Call.errBegin, Call.datCell loc sub.length (cellSubscripts sub)] ++ rest ∧
      ∀ c ∈ rest, c = Call.errLoad ∨ c = Call.errEnd) ∧
    (ndf.pydat_cell env w loc (some sub)).world.calls =
      w.calls ++ [Call.datCell loc sub.length (cellSubscripts sub)] := by
  have heq := cellSubscripts_eq sub hsub
  refine ⟨?_, ?_, heq, ?_, ?_⟩
  · simp [cellSubscripts]
  · intro i hi
    have h3 : sub.length - 1 - i < sub.length := by omega
    have h4 : i < (List.map (fun x => x + 1) sub).reverse.length := by simpa using hi
    rw [heq]
    simp [List.getD_eq_getElem?_getD, List.getElem?_eq_getElem h3, List.getElem?_eq_getElem h4,
      List.getElem_reverse]
  · by_cases hs : (env.datCell loc sub.length (cellSubscripts sub)).status = SAI__OK
    · refine ⟨[], ?_, by simp⟩
      simp [hds.pydat_cell, World.invoke, errBegin, hs, HDS_create_object_eq, World.setErr]
    · obtain ⟨rest, hr, hc⟩ := raiseHDSException_calls env
        (((errBegin w).invoke SAI__OK (Call.datCell loc sub.length (cellSubscripts sub))
          (env.datCell loc sub.length (cellSubscripts sub)) 0).1)
        (env.datCell loc sub.length (cellSubscripts sub)).status
      refine ⟨rest, ?_, hc⟩
      simp only [hds.pydat_cell]
      have hst : ((errBegin w).invoke SAI__OK (Call.datCell loc sub.length (cellSubscripts sub))
          (env.datCell loc sub.length (cellSubscripts sub)) 0).2.1 =
          (env.datCell loc sub.length (cellSubscripts sub)).status := by
        simp [World.invoke, hs]
      rw [hst]
      simp only [hs, ne_eq, not_false_eq_true, if_true]
      rw [hr, invoke_calls]
      simp [errBegin]
  · simp only [ndf.pydat_cell]
    split <;> simp [invoke_calls]

/-- C3, at the index sequence 0, 1, 5. -/
theorem cell_subscripts_reversed_one_based_witness :
    (∀ x ∈ [(0 : Int), 1, 5], INT_MIN ≤ x ∧ x < INT_MAX) ∧
    (ndf.pydat_cell sampleEnv World.init 7 (some [0, 1, 5])).world.calls =
      World.init.calls ++ [Call.datCell 7 ([(0 : Int), 1, 5].length) (cellSubscripts [0, 1, 5])] ∧
    cellSubscripts [0, 1, 5] = [6, 2, 1] :=
  ⟨by decide,
    (cell_subscripts_reversed_one_based sampleEnv World.init 7 [0, 1, 5] (by decide)).2.2.2.2,
    by decide⟩

/-- C4: for every position `p` and every extension ordinal `n` that are C
`int` values with a representable successor, `index(p)` calls `datIndex` with
`p + 1` and `xname(n)` calls `ndfXname` with `n + 1`; these are the only calls
that carry the ordinal. -/
theorem ordinals_made_one_based (env : Env) (w : World) (loc : HDSLoc) (p indf n : Int)
    (nlen : Option Int) (hp : INT_MIN ≤ p ∧ p < INT_MAX) (hn : INT_MIN ≤ n ∧ n < INT_MAX) :
    (∃ rest, (hds.pydat_index env w loc p).world.calls =
        w.calls ++ [Call.errBegin, Call.datIndex loc (p + 1)] ++ rest ∧
      ∀ c ∈ rest, c = Call.errLoad ∨ c = Call.errEnd) ∧
    (ndf.pyndf_xname env w indf n nlen).world.calls =
      w.calls ++ [Call.ndfXname indf (n + 1) (wrapInt (nlen.getD 32 + 1))] := by
  have hwp : wrapInt (p + 1) = p + 1 := by
    apply wrapInt_of_range <;> simp only [INT_MIN, INT_MAX] at * <;> omega
  have hwn : wrapInt (n + 1) = n + 1 := by
    apply wrapInt_of_range <;> simp only [INT_MIN, INT_MAX] at * <;> omega
  constructor
  · obtain ⟨rest, hr, hc⟩ := raiseHDSException_calls env
      (((errBegin w).invoke SAI__OK (Call.datIndex loc (p + 1)) (env.datIndex loc (p + 1)) 0).1)
      (((errBegin w).invoke SAI__OK (Call.datIndex loc (p + 1)) (env.datIndex loc (p + 1)) 0).2.1)
    refine ⟨rest, ?_, hc⟩
    simp only [hds.pydat_index, hwp, HDS_create_object_eq, World.setErr]
    split <;> (rw [hr, invoke_calls]; simp [errBegin])
  · simp only [ndf.pyndf_xname, hwn]
    split <;> simp [invoke_calls]

/-- C4, at the position 0 and the extension ordinal 2. -/
theorem ordinals_made_one_based_witness :
    (INT_MIN ≤ (0 : Int) ∧ (0 : Int) < INT_MAX) ∧ (INT_MIN ≤ (2 : Int) ∧ (2 : Int) < INT_MAX) ∧
    (ndf.pyndf_xname sampleEnv World.init 1 2 none).world.calls =
      World.init.calls ++ [Call.ndfXname 1 (2 + 1) (wrapInt ((none : Option Int).getD 32 + 1))] :=
  ⟨by decide, by decide,
    (ordinals_made_one_based sampleEnv World.init 7 0 1 2 none (by decide) (by decide)).2⟩

/-- C5: when the shape query succeeds with the store-order extents `d`,
`shape()` returns `None` for a dimensionless component and otherwise an array
of the length of `d` whose entry `i` is `d[ndim-1-i]`. -/
theorem shape_is_store_shape_reversed (env : Env) (w : World) (loc : HDSLoc) (d pad : List Int)
    (hok : (env.datShape loc 7).status = SAI__OK)
    (hnd : (env.datShape loc 7).value.ndim = d.length)
    (hd : (env.datShape loc 7).value.dim = d ++ pad)
    (ha : env.npyAlloc [(d.length : Int)] = true) :
    (d = [] → (hds.pydat_shape env w loc).ret = PyRet.none) ∧
    (d ≠ [] →
      (hds.pydat_shape env w loc).ret =
        PyRet.array ⟨NpyType.NPY_INT, 4, [(d.length : Int)], d.reverse⟩ ∧
      d.reverse.length = d.length ∧
      ∀ i, i < d.length → d.reverse.getD i 0 = d.getD (d.length - 1 - i) 0) := by
  constructor
  · intro h
    subst h
    simp [hds.pydat_shape, World.invoke, hok, raiseHDSException_ok] at hnd ⊢
    simp [hnd]
  · intro h
    have hlen : (d.length : Int) ≠ 0 := by
      intro h0
      exact h (List.length_eq_zero.mp (by exact_mod_cast h0))
    refine ⟨?_, by simp, ?_⟩
    · simp [hds.pydat_shape, World.invoke, hok, raiseHDSException_ok, hnd, hd, hlen, ha,
        reverseDims_append]
    · intro i hi
      exact getD_reverse d i hi

/-- C5, at a store whose objects have the store-order shape 3, 2. -/
theorem shape_is_store_shape_reversed_witness :
    ((storeOf [3, 2] "_REAL" []).datShape 1 7).status = SAI__OK ∧
    ((storeOf [3, 2] "_REAL" []).datShape 1 7).value.ndim = ([3, 2] : List Int).length ∧
    ((storeOf [3, 2] "_REAL" []).datShape 1 7).value.dim = [3, 2] ++ [] ∧
    (storeOf [3, 2] "_REAL" []).npyAlloc [(([3, 2] : List Int).length : Int)] = true ∧
    (hds.pydat_shape (storeOf [3, 2] "_REAL" []) World.init 1).ret =
      PyRet.array ⟨NpyType.NPY_INT, 4, [(([3, 2] : List Int).length : Int)],
        ([3, 2] : List Int).reverse⟩ :=
  ⟨rfl, rfl, rfl, rfl,
    ((shape_is_store_shape_reversed (storeOf [3, 2] "_REAL" []) World.init 1 [3, 2] []
      rfl rfl rfl rfl).2 (by decide)).1⟩

/-- C6: the reversal loop of `get` and `shape` is its own inverse on every
shape, and it keeps the length and the multiset of extents. -/
theorem reverseShape_self_inverse (s : List Int) :
    reverseShape (reverseShape s) = s ∧
    (reverseShape s).length = s.length ∧
    (↑(reverseShape s) : Multiset Int) = ↑s ∧
    (∀ i, i < s.length → (reverseShape s).getD i 0 = s.getD (s.length - 1 - i) 0) := by
  refine ⟨?_, ?_, ?_, ?_⟩
  · rw [reverseShape_eq, reverseShape_eq, List.reverse_reverse]
  · rw [reverseShape_eq, List.length_reverse]
  · rw [reverseShape_eq]
    exact Multiset.coe_reverse s
  · intro i hi
    rw [reverseShape_eq]
    exact getD_reverse s i hi

/-- C7: evaluation of `new("A", "_REAL", 2, [2, 3])`: `datNew` receives the
caller-order shape 2, 3 as it stands, not its reversal 3, 2, and `shape()` on
a component whose store-order shape is 2, 3 reports 3, 2. -/
theorem new_hands_over_unreversed_shape :
    (hds.pydat_new sampleEnv World.init 1 "A" "_REAL" 2 [2, 3]).world.calls =
      [Call.errBegin, Call.datNew 1 "A" "_REAL" 2 [2, 3]] ∧
    (hds.pydat_new sampleEnv World.init 1 "A" "_REAL" 2 [2, 3]).ret = PyRet.none ∧
    reverseShape [2, 3] = [3, 2] ∧
    (hds.pydat_shape (storeOf [2, 3] "_REAL" []) World.init 1).ret =
      PyRet.array ⟨NpyType.NPY_INT, 4, [2], [3, 2]⟩ := by
  decide

/-- C8: evaluation of `put("_REAL", 2, [2, 3], value)` in both modules: the
dimension array passed to `datPut` is the caller-order shape 2, 3 as it
stands, not its reversal 3, 2. -/
theorem put_hands_over_unreversed_shape :
    (hds.pydat_put sampleEnv World.init 1 "_REAL" 2 [2, 3] sixReals).world.calls =
      [Call.errBegin, Call.datPut 1 "_REAL" 2 [2, 3] sixReals] ∧
    (ndf.pydat_put sampleEnv World.init 1 "_REAL" 2 [2, 3] sixReals).world.calls =
      [Call.datPut 1 "_REAL" 2 [2, 3] sixReals] ∧
    (hds.pydat_put sampleEnv World.init 1 "_REAL" 2 [2, 3] sixReals).ret = PyRet.none ∧
    reverseShape [2, 3] = [3, 2] := by
  decide

/-- C9: evaluation of `put` at the tags `_WORD`, `_LOGICAL` and `_UWORD` on a
scalar: it returns `NULL` without any call to the collaborator, while `get`
reads a `_WORD` scalar; and after a `put` with the shape 2, 3 the `get` of a
component of that store-order shape reports the shape 3, 2. -/
theorem put_refuses_word_logical_uword :
    hds.pydat_put sampleEnv World.init 1 "_WORD" 0 [] ⟨NpyType.NPY_SHORT, 2, [], [42]⟩ =
      ⟨World.init, PyRet.null⟩ ∧
    hds.pydat_put sampleEnv World.init 1 "_LOGICAL" 0 [] scalar42 = ⟨World.init, PyRet.null⟩ ∧
    hds.pydat_put sampleEnv World.init 1 "_UWORD" 0 [] ⟨NpyType.NPY_USHORT, 2, [], [42]⟩ =
      ⟨World.init, PyRet.null⟩ ∧
    (hds.pydat_get (storeOf [] "_WORD" [42]) World.init 1).ret =
      PyRet.array ⟨NpyType.NPY_SHORT, 2, [], [42]⟩ ∧
    (hds.pydat_put sampleEnv World.init 1 "_REAL" 2 [2, 3] sixReals).world.calls =
      [Call.errBegin, Call.datPut 1 "_REAL" 2 [2, 3] sixReals] ∧
    (hds.pydat_get (storeOf [2, 3] "_REAL" [1, 2, 3, 4, 5, 6]) World.init 1).ret =
      PyRet.array ⟨NpyType.NPY_FLOAT, 4, [3, 2], [1, 2, 3, 4, 5, 6]⟩ := by
  decide

theorem strncmpEq_char_star (s : String) : strncmpEq ("_CHAR*" ++ s) "_CHAR*" 6 = true := by
  unfold strncmpEq
  simp [String.data_append]

theorem checkHDStype_char_star (s : String) : checkHDStype ("_CHAR*" ++ s) = 1 := by
  unfold checkHDStype
  simp [strncmpEq_char_star]
/-- C11: evaluation of `checkHDStype` on the tags of the fixed set: the tag
`_UWORD` is refused (the function compares with `UWORD`), so `new`, `put`,
`xnew` and `map` return `NULL` for it before any call to the collaborator;
the seven other names and every tag that starts with `_CHAR*` are accepted. -/
theorem checkHDStype_refuses_uword :
    checkHDStype "_UWORD" = 0 ∧ checkHDStype "UWORD" = 1 ∧
    checkHDStype "_INTEGER" = 1 ∧ checkHDStype "_REAL" = 1 ∧ checkHDStype "_DOUBLE" = 1 ∧
    checkHDStype "_LOGICAL" = 1 ∧ checkHDStype "_WORD" = 1 ∧ checkHDStype "_BYTE" = 1 ∧
    checkHDStype "_UBYTE" = 1 ∧
    (∀ n : Nat, checkHDStype ("_CHAR*" ++ toString n) = 1) ∧
    hds.pydat_new sampleEnv World.init 1 "A" "_UWORD" 0 [] = ⟨World.init, PyRet.null⟩ ∧
    hds.pydat_put sampleEnv World.init 1 "_UWORD" 0 [] scalar42 = ⟨World.init, PyRet.null⟩ ∧
    ndf.pyndf_xnew sampleEnv World.init 1 "X" "_UWORD" 1 (some [2]) =
      ⟨World.init, PyRet.null⟩ ∧
    ndf.pyndf_map sampleEnv World.init 1 "DATA" "_UWORD" "READ" = ⟨World.init, PyRet.null⟩ ∧
    (hds.pydat_get (storeOf [] "_UWORD" [42]) World.init 1).ret =
      PyRet.array ⟨NpyType.NPY_USHORT, 2, [], [42]⟩ := by
  refine ⟨by decide, by decide, by decide, by decide, by decide, by decide, by decide,
    by decide, by decide, fun n => checkHDStype_char_star (toString n), by decide, by decide,
    by decide, by decide, by decide⟩


/-- Outcome of `pydat_get` of `hds.c` for a stored type that no branch accepts. -/
theorem hds_get_unsupported (env : Env) (w : World) (loc : HDSLoc) (typ : String)
    (hs : (env.datStruc loc).status = SAI__OK) (hv : (env.datStruc loc).value = 0)
    (ht : (env.datType loc).status = SAI__OK) (hty : (env.datType loc).value = typ)
    (hsh : (env.datShape loc 7).status = SAI__OK)
    (h8 : typ ≠ "_INTEGER" ∧ typ ≠ "_LOGICAL" ∧ typ ≠ "_REAL" ∧ typ ≠ "_DOUBLE" ∧
      typ ≠ "_WORD" ∧ typ ≠ "_UWORD" ∧ typ ≠ "_BYTE" ∧ typ ≠ "_UBYTE")
    (hc : strncmpEq typ "_CHAR" 5 = false) :
    hds.pydat_get env w loc =
      ⟨{ w with
          calls := w.calls ++ [Call.errBegin, Call.datStruc loc, Call.datType loc,
            Call.datShape loc 7]
          errLevel := w.errLevel + 1
          pyerr := some ⟨PyExc.PyExc_IOError, "dat_get: encountered an unimplemented type"⟩ },
        PyRet.null⟩ := by
  obtain ⟨h1, h2, h3, h4, h5, h6, h7, h9⟩ := h8
  simp [hds.pydat_get, World.invoke, errBegin, hs, hv, ht, hty, hsh, raiseHDSException_ok,
    h1, h2, h3, h4, h5, h6, h7, h9, hc, World.setErr]

theorem invoke_ok {α : Type} (w : World) (c : Call) (r : Reply α) (dflt : α)
    (h : r.status = SAI__OK) :
    w.invoke SAI__OK c r dflt = ({ w with calls := w.calls ++ [c] }, SAI__OK, r.value) := by
  simp [World.invoke, h]

theorem invoke_count {α : Type} (w : World) (status : Int) (c : Call) (r : Reply α) (dflt : α)
    (x : Call) :
    (w.invoke status c r dflt).1.calls.count x = w.calls.count x + [c].count x := by
  rw [invoke_calls, List.count_append]

theorem raiseHDSException_count (env : Env) (w : World) (status : Int) (l : HDSLoc) :
    (raiseHDSException env w status).world.calls.count (Call.datLen l) =
      w.calls.count (Call.datLen l) := by
  obtain ⟨rest, hr, hc⟩ := raiseHDSException_calls env w status
  rw [hr, List.count_append]
  have : rest.count (Call.datLen l) = 0 := by
    apply List.count_eq_zero.mpr
    intro hm
    rcases hc _ hm with h | h <;> cases h
  omega

theorem hds_get_read_calls (env : Env) (w : World) (status : Int) (self : HDSLoc)
    (typ : String) (ndim : Int) (tdim : List Int) (arr : Option NpyArray) :
    ∃ rest, (hds.pydat_get_read env w status self typ ndim tdim arr).world.calls =
        w.calls ++ rest ∧
      ∀ c ∈ rest, c = Call.datGet self typ ndim tdim ∨ c = Call.errLoad ∨ c = Call.errEnd := by
  cases arr with
  | none =>
    obtain ⟨rest, hr, hc⟩ := raiseHDSException_calls env (w.setErr PyExc.numpyError "") status
    exact ⟨rest, by simpa [hds.pydat_get_read, World.setErr] using hr,
      fun c h => Or.inr (hc c h)⟩
  | some a =>
    simp only [hds.pydat_get_read]
    split
    · obtain ⟨rest, hr, hc⟩ := raiseHDSException_calls env
        (w.invoke status (Call.datGet self typ ndim tdim) (env.datGet self typ ndim tdim) []).1
        (w.invoke status (Call.datGet self typ ndim tdim) (env.datGet self typ ndim tdim) []).2.1
      refine ⟨Call.datGet self typ ndim tdim :: rest, ?_, ?_⟩
      · rw [hr, invoke_calls]
        simp
      · intro c h
        rcases List.mem_cons.mp h with h | h
        · exact Or.inl h
        · exact Or.inr (hc c h)
    · exact ⟨[Call.datGet self typ ndim tdim], by rw [invoke_calls], by simp⟩

theorem hds_get_read_count (env : Env) (w : World) (status : Int) (self : HDSLoc)
    (typ : String) (ndim : Int) (tdim : List Int) (arr : Option NpyArray) (l : HDSLoc) :
    (hds.pydat_get_read env w status self typ ndim tdim arr).world.calls.count (Call.datLen l) =
      w.calls.count (Call.datLen l) := by
  obtain ⟨rest, hr, hc⟩ := hds_get_read_calls env w status self typ ndim tdim arr
  rw [hr, List.count_append]
  have : rest.count (Call.datLen l) = 0 := by
    apply List.count_eq_zero.mpr
    intro hm
    rcases hc _ hm with h | h | h <;> cases h
  omega

theorem ndf_get_read_calls (env : Env) (w : World) (status : Int) (loc : HDSLoc)
    (typ : String) (ndim : Int) (tdim : List Int) (arr : Option NpyArray) :
    ∃ rest, (ndf.pydat_get_read env w status loc typ ndim tdim arr).world.calls =
        w.calls ++ rest := by
  cases arr with
  | none => exact ⟨[], by simp [ndf.pydat_get_read, World.setErr]⟩
  | some a =>
    simp only [ndf.pydat_get_read]
    split <;> exact ⟨[Call.datGet loc typ ndim tdim], by rw [invoke_calls]⟩

theorem char_tag_ne (typ : String) (h : strncmpEq typ "_CHAR" 5 = true) :
    typ ≠ "_INTEGER" ∧ typ ≠ "_LOGICAL" ∧ typ ≠ "_REAL" ∧ typ ≠ "_DOUBLE" ∧ typ ≠ "_WORD" ∧
      typ ≠ "_UWORD" ∧ typ ≠ "_BYTE" ∧ typ ≠ "_UBYTE" := by
  refine ⟨?_, ?_, ?_, ?_, ?_, ?_, ?_, ?_⟩ <;> (rintro rfl; revert h; decide)

theorem raiseHDSException_bad (env : Env) (w : World) (status : Int) (h : status ≠ SAI__OK) :
    (raiseHDSException env w status).ret = 1 := by
  simp [raiseHDSException, h]

theorem calls_extend (base : List Call) (W x : World)
    (h : ∃ rest, x.calls = W.calls ++ rest) (hW : ∃ pre, W.calls = base ++ pre) :
    ∃ rest, x.calls = base ++ rest := by
  obtain ⟨rest, hr⟩ := h
  obtain ⟨pre, hp⟩ := hW
  exact ⟨pre ++ rest, by rw [hr, hp, List.append_assoc]⟩

theorem raiseHDSException_extend (env : Env) (w : World) (status : Int) :
    ∃ rest, (raiseHDSException env w status).world.calls = w.calls ++ rest := by
  obtain ⟨rest, hr, _⟩ := raiseHDSException_calls env w status
  exact ⟨rest, hr⟩

theorem hds_get_read_extend (env : Env) (w : World) (status : Int) (self : HDSLoc)
    (typ : String) (ndim : Int) (tdim : List Int) (arr : Option NpyArray) :
    ∃ rest, (hds.pydat_get_read env w status self typ ndim tdim arr).world.calls =
      w.calls ++ rest := by
  obtain ⟨rest, hr, _⟩ := hds_get_read_calls env w status self typ ndim tdim arr
  exact ⟨rest, hr⟩

/-- The world of `pydat_get` of `hds.c` once the structure guard is passed:
the type and the shape are queried next. -/
theorem hds_get_continues (env : Env) (w : World) (loc : HDSLoc)
    (hs : (env.datStruc loc).status = SAI__OK) (hv : (env.datStruc loc).value = 0) :
    ∃ rest, (hds.pydat_get env w loc).world.calls =
      w.calls ++ [Call.errBegin, Call.datStruc loc, Call.datType loc, Call.datShape loc 7] ++
        rest := by
  by_cases ht : (env.datType loc).status = SAI__OK
  · by_cases hsh : (env.datShape loc 7).status = SAI__OK
    · simp only [hds.pydat_get, invoke_ok _ _ _ _ hs, invoke_ok _ _ _ _ ht,
        invoke_ok _ _ _ _ hsh, raiseHDSException_ok, hv, errBegin]
      simp only [ne_eq, not_true_eq_false, if_false]
      split_ifs
      all_goals first
        | (refine calls_extend _ _ _ (hds_get_read_extend _ _ _ _ _ _ _ _)
             ⟨[Call.datLen loc], ?_⟩
           rw [invoke_calls]
           simp)
        | (refine calls_extend _ _ _ (raiseHDSException_extend _ _ _) ⟨[Call.datLen loc], ?_⟩
           rw [invoke_calls]
           simp)
        | (refine calls_extend _ _ _ (hds_get_read_extend _ _ _ _ _ _ _ _) ⟨[], ?_⟩
           simp)
        | exact ⟨[], by simp [World.setErr]⟩
    · have hr := raiseHDSException_bad env
        ({ calls := w.calls ++ [Call.errBegin] ++ [Call.datStruc loc] ++ [Call.datType loc] ++
            [Call.datShape loc 7], ems := w.ems ++ (env.datShape loc 7).report,
            errLevel := w.errLevel + 1, pyerr := w.pyerr } : World)
        (env.datShape loc 7).status hsh
      simp only [hds.pydat_get, invoke_ok _ _ _ _ hs, invoke_ok _ _ _ _ ht,
        raiseHDSException_ok, hv, errBegin]
      simp only [World.invoke, ne_eq, not_true_eq_false, if_false, hsh, not_false_eq_true,
        if_true, hr, one_ne_zero]
      refine calls_extend _ _ _ (raiseHDSException_extend _ _ _) ⟨[], ?_⟩
      simp
  · have hr := raiseHDSException_bad env
      ({ calls := w.calls ++ [Call.errBegin] ++ [Call.datStruc loc] ++ [Call.datType loc] ++
          [Call.datShape loc 7], ems := w.ems ++ (env.datType loc).report,
          errLevel := w.errLevel + 1, pyerr := w.pyerr } : World)
      (env.datType loc).status ht
    simp only [hds.pydat_get, invoke_ok _ _ _ _ hs, raiseHDSException_ok, hv, errBegin]
    simp only [World.invoke, ne_eq, not_true_eq_false, if_false, ht, not_false_eq_true,
      if_true, hr, one_ne_zero]
    refine calls_extend _ _ _ (raiseHDSException_extend _ _ _) ⟨[], ?_⟩
    simp

theorem ndf_get_read_extend (env : Env) (w : World) (status : Int) (loc : HDSLoc)
    (typ : String) (ndim : Int) (tdim : List Int) (arr : Option NpyArray) :
    ∃ rest, (ndf.pydat_get_read env w status loc typ ndim tdim arr).world.calls =
      w.calls ++ rest :=
  ndf_get_read_calls env w status loc typ ndim tdim arr

/-- The world of `pydat_get` of `ndf.c` once the structure guard is passed:
the type and the shape are queried next. -/
theorem ndf_get_continues (env : Env) (w : World) (loc : HDSLoc)
    (hs : (env.datStruc loc).status = SAI__OK) (hv : (env.datStruc loc).value = 0) :
    ∃ rest, (ndf.pydat_get env w loc).world.calls =
      w.calls ++ [Call.datStruc loc, Call.datType loc, Call.datShape loc 7] ++ rest := by
  by_cases ht : (env.datType loc).status = SAI__OK
  · by_cases hsh : (env.datShape loc 7).status = SAI__OK
    · simp only [ndf.pydat_get, invoke_ok _ _ _ _ hs, invoke_ok _ _ _ _ ht,
        invoke_ok _ _ _ _ hsh, hv]
      simp only [ne_eq, not_true_eq_false, if_false]
      split_ifs
      all_goals first
        | (refine calls_extend _ _ _ (ndf_get_read_extend _ _ _ _ _ _ _ _)
             ⟨[Call.datLen loc], ?_⟩
           rw [invoke_calls]
           simp)
        | (refine ⟨[Call.datLen loc], ?_⟩
           rw [invoke_calls]
           simp)
        | (refine calls_extend _ _ _ (ndf_get_read_extend _ _ _ _ _ _ _ _) ⟨[], ?_⟩
           simp)
        | exact ⟨[], by simp [World.setErr]⟩
    · simp only [ndf.pydat_get, invoke_ok _ _ _ _ hs, invoke_ok _ _ _ _ ht, hv]
      simp only [World.invoke, ne_eq, not_true_eq_false, if_false, hsh, not_false_eq_true,
        if_true]
      exact ⟨[], by simp⟩
  · simp only [ndf.pydat_get, invoke_ok _ _ _ _ hs, hv]
    simp only [World.invoke, ne_eq, not_true_eq_false, if_false, ht, not_false_eq_true,
      if_true]
    exact ⟨[], by simp⟩

/-- C13: when the structure query succeeds and reports a structure, `get`
raises the error for structures and makes no further call to the store (no
type, shape, length or data query); when it reports a primitive, `get` passes
the guard and goes on to query the type and the shape.  This holds for the
`pydat_get` of `hds.c` and for the one of `ndf.c`. -/
theorem get_guards_against_structures (env : Env) (w : World) (loc : HDSLoc)
    (hs : (env.datStruc loc).status = SAI__OK) :
    ((env.datStruc loc).value ≠ 0 →
      hds.pydat_get env w loc =
        ⟨{ w with
            calls := w.calls ++ [Call.errBegin, Call.datStruc loc]
            errLevel := w.errLevel + 1
            pyerr := some ⟨PyExc.PyExc_IOError, "dat_get error: cannot use on structures"⟩ },
          PyRet.null⟩ ∧
      ndf.pydat_get env w loc =
        ⟨{ w with
            calls := w.calls ++ [Call.datStruc loc]
            pyerr := some ⟨PyExc.PyExc_IOError, "dat_get error: cannot use on structures"⟩ },
          PyRet.null⟩) ∧
    ((env.datStruc loc).value = 0 →
      (∃ rest, (hds.pydat_get env w loc).world.calls =
        w.calls ++ [Call.errBegin, Call.datStruc loc, Call.datType loc, Call.datShape loc 7] ++
          rest) ∧
      (∃ rest, (ndf.pydat_get env w loc).world.calls =
        w.calls ++ [Call.datStruc loc, Call.datType loc, Call.datShape loc 7] ++ rest)) := by
  constructor
  · intro hv
    constructor
    · simp [hds.pydat_get, World.invoke, errBegin, hs, hv, raiseHDSException_ok, World.setErr]
    · simp [ndf.pydat_get, World.invoke, hs, hv, World.setErr]
  · intro hv
    exact ⟨hds_get_continues env w loc hs hv, ndf_get_continues env w loc hs hv⟩

/-- C13, at a store in which every object is a structure. -/
theorem get_guards_against_structures_witness :
    (structureStore.datStruc 1).status = SAI__OK ∧ (structureStore.datStruc 1).value ≠ 0 ∧
    hds.pydat_get structureStore World.init 1 =
      ⟨{ World.init with
          calls := World.init.calls ++ [Call.errBegin, Call.datStruc 1]
          errLevel := World.init.errLevel + 1
          pyerr := some ⟨PyExc.PyExc_IOError, "dat_get error: cannot use on structures"⟩ },
        PyRet.null⟩ :=
  ⟨rfl, by decide,
    ((get_guards_against_structures structureStore World.init 1 rfl).1 (by decide)).1⟩

/-- C14: once the structure, type and shape queries of `get` have succeeded
with the type `typ`, the array is created from a fixed table (`_INTEGER` and
`_LOGICAL`: `int`, 4 bytes; `_REAL`: `float`, 4; `_DOUBLE`: `double`, 8;
`_WORD`: `short`, 2; `_UWORD`: unsigned `short`, 2; `_BYTE`: signed byte, 1;
`_UBYTE`: unsigned byte, 1), and `datLen` is called once when `typ` is a
`_CHAR` tag and not at all for any other tag. -/
theorem get_type_resolution (env : Env) (w : World) (loc : HDSLoc) (typ : String)
    (ndim : Int) (tdim items : List Int)
    (hs : (env.datStruc loc).status = SAI__OK) (hv : (env.datStruc loc).value = 0)
    (ht : (env.datType loc).status = SAI__OK) (hty : (env.datType loc).value = typ)
    (hsh : (env.datShape loc 7).status = SAI__OK)
    (hdim : (env.datShape loc 7).value = ⟨ndim, tdim⟩) :
    (env.npyAlloc (reverseDims ndim tdim) = true →
      (env.datGet loc typ ndim tdim).status = SAI__OK →
      (env.datGet loc typ ndim tdim).value = items →
      ∀ t sz, (typ, t, sz) ∈
        [("_INTEGER", NpyType.NPY_INT, 4), ("_LOGICAL", NpyType.NPY_INT, 4),
          ("_REAL", NpyType.NPY_FLOAT, 4), ("_DOUBLE", NpyType.NPY_DOUBLE, 8),
          ("_WORD", NpyType.NPY_SHORT, 2), ("_UWORD", NpyType.NPY_USHORT, 2),
          ("_BYTE", NpyType.NPY_BYTE, 1), ("_UBYTE", NpyType.NPY_UBYTE, 1)] →
      (hds.pydat_get env w loc).ret = PyRet.array ⟨t, sz, reverseDims ndim tdim, items⟩) ∧
    (hds.pydat_get env w loc).world.calls.count (Call.datLen loc) =
      w.calls.count (Call.datLen loc) + (if strncmpEq typ "_CHAR" 5 = true then 1 else 0) := by
  constructor
  · intro ha hg hi t sz hmem
    simp only [List.mem_cons, Prod.mk.injEq, List.mem_singleton, List.not_mem_nil,
      or_false] at hmem
    rcases hmem with h | h | h | h | h | h | h | h <;> obtain ⟨h1, h2, h3⟩ := h <;>
      subst h1 h2 h3 <;>
      simp [hds.pydat_get, hds.pydat_get_read, hds.newArray, World.invoke, errBegin, hs, hv,
        ht, hty, hsh, hdim, ha, hg, hi, raiseHDSException_ok, strncmpEq]
  · by_cases hc : strncmpEq typ "_CHAR" 5 = true
    · obtain ⟨n1, n2, n3, n4, _, _, _, _⟩ := char_tag_ne typ hc
      simp only [hds.pydat_get, invoke_ok _ _ _ _ hs, invoke_ok _ _ _ _ ht,
        invoke_ok _ _ _ _ hsh, raiseHDSException_ok, hv, errBegin, hty, hc]
      simp only [ne_eq, not_true_eq_false, if_false, n1, n2, n3, n4, or_self, if_true]
      split_ifs
      · rw [hds_get_read_count, invoke_count]
        simp [List.count_append, List.count_cons]
      · dsimp only
        rw [raiseHDSException_count, invoke_count]
        simp [List.count_append, List.count_cons]
    · rw [if_neg hc, add_zero]
      simp only [hds.pydat_get, invoke_ok _ _ _ _ hs, invoke_ok _ _ _ _ ht,
        invoke_ok _ _ _ _ hsh, raiseHDSException_ok, hv, errBegin, hty]
      simp only [ne_eq, not_true_eq_false, if_false]
      split_ifs
      all_goals first
        | contradiction
        | (rw [hds_get_read_count]
           simp [List.count_append, List.count_cons])
        | simp [World.setErr, List.count_append, List.count_cons]

/-- C14, at a store holding a scalar of type `_WORD`. -/
theorem get_type_resolution_witness :
    ((storeOf [] "_WORD" [42]).datStruc 1).status = SAI__OK ∧
    ((storeOf [] "_WORD" [42]).datType 1).value = "_WORD" ∧
    (hds.pydat_get (storeOf [] "_WORD" [42]) World.init 1).ret =
      PyRet.array ⟨NpyType.NPY_SHORT, 2, reverseDims 0 [], [42]⟩ ∧
    (hds.pydat_get (storeOf [] "_WORD" [42]) World.init 1).world.calls.count (Call.datLen 1) =
      World.init.calls.count (Call.datLen 1) +
        (if strncmpEq "_WORD" "_CHAR" 5 = true then 1 else 0) :=
  ⟨rfl, rfl,
    (get_type_resolution (storeOf [] "_WORD" [42]) World.init 1 "_WORD" 0 [] [42]
      rfl rfl rfl rfl rfl rfl).1 rfl rfl rfl NpyType.NPY_SHORT 2 (by decide),
    (get_type_resolution (storeOf [] "_WORD" [42]) World.init 1 "_WORD" 0 [] [42]
      rfl rfl rfl rfl rfl rfl).2⟩

/-- C12, counterexample: the tag `_CHAR*abc`, whose width is not a number, and
the bare tag `_CHAR` pass `checkHDStype`, and `get` treats the stored types
`_CHAR*abc` and `_CHARX` as `_CHAR` types: it asks for the length, creates a
string array and raises no error. -/
theorem char_tags_pass_without_width :
    checkHDStype "_CHAR*abc" = 1 ∧ checkHDStype "_CHAR" = 1 ∧
    hds.pydat_get (storeOf [] "_CHAR*abc" [1]) World.init 1 =
      ⟨{ World.init with
          calls := [Call.errBegin, Call.datStruc 1, Call.datType 1, Call.datShape 1 7,
            Call.datLen 1, Call.datGet 1 "_CHAR*abc" 0 []]
          errLevel := 1 },
        PyRet.array ⟨NpyType.NPY_STRING, 4, [], [1]⟩⟩ ∧
    hds.pydat_get (storeOf [] "_CHARX" [1]) World.init 1 =
      ⟨{ World.init with
          calls := [Call.errBegin, Call.datStruc 1, Call.datType 1, Call.datShape 1 7,
            Call.datLen 1, Call.datGet 1 "_CHARX" 0 []]
          errLevel := 1 },
        PyRet.array ⟨NpyType.NPY_STRING, 4, [], [1]⟩⟩ := by
  decide

/-- C12, amended: `checkHDStype` returns 0 for every string that is none of
the eight fixed names, is not `UWORD`, is not `_CHAR` and does not start with
`_CHAR*`; `get` fails with the error for an unimplemented type, before any
length or data query, for every stored type that is none of the eight fixed
names and does not start with `_CHAR`.  In particular `_CHARX` is refused by
`checkHDStype` and `UWORD` by `get`, while `_CHAR` and every string that
starts with `_CHAR*` pass `checkHDStype` and `get` reads a stored `_CHARX` as
a `_CHAR` type. -/
theorem tags_outside_the_set_are_refused (env : Env) (w : World) (loc : HDSLoc)
    (type typ : String)
    (h8 : type ≠ "_INTEGER" ∧ type ≠ "_REAL" ∧ type ≠ "_DOUBLE" ∧ type ≠ "_LOGICAL" ∧
      type ≠ "_WORD" ∧ type ≠ "_UWORD" ∧ type ≠ "_BYTE" ∧ type ≠ "_UBYTE")
    (hu : type ≠ "UWORD") (hc : type ≠ "_CHAR") (hp : strncmpEq type "_CHAR*" 6 = false)
    (hs : (env.datStruc loc).status = SAI__OK) (hv : (env.datStruc loc).value = 0)
    (ht : (env.datType loc).status = SAI__OK) (hty : (env.datType loc).value = typ)
    (hsh : (env.datShape loc 7).status = SAI__OK)
    (g8 : typ ≠ "_INTEGER" ∧ typ ≠ "_LOGICAL" ∧ typ ≠ "_REAL" ∧ typ ≠ "_DOUBLE" ∧
      typ ≠ "_WORD" ∧ typ ≠ "_UWORD" ∧ typ ≠ "_BYTE" ∧ typ ≠ "_UBYTE")
    (gc : strncmpEq typ "_CHAR" 5 = false) :
    checkHDStype type = 0 ∧
    hds.pydat_get env w loc =
      ⟨{ w with
          calls := w.calls ++ [Call.errBegin, Call.datStruc loc, Call.datType loc,
            Call.datShape loc 7]
          errLevel := w.errLevel + 1
          pyerr := some ⟨PyExc.PyExc_IOError, "dat_get: encountered an unimplemented type"⟩ },
        PyRet.null⟩ ∧
    checkHDStype "_CHARX" = 0 ∧
    (hds.pydat_get (storeOf [] "UWORD" [1]) World.init 1).world.pyerr =
      some ⟨PyExc.PyExc_IOError, "dat_get: encountered an unimplemented type"⟩ ∧
    checkHDStype "_CHAR" = 1 ∧
    (∀ s : String, checkHDStype ("_CHAR*" ++ s) = 1) ∧
    (hds.pydat_get (storeOf [] "_CHARX" [1]) World.init 1).ret =
      PyRet.array ⟨NpyType.NPY_STRING, 4, [], [1]⟩ := by
  refine ⟨?_, hds_get_unsupported env w loc typ hs hv ht hty hsh g8 gc, by decide, by decide,
    by decide, checkHDStype_char_star, by decide⟩
  obtain ⟨h1, h2, h3, h4, h5, h6, h7, h9⟩ := h8
  simp [checkHDStype, h1, h2, h3, h4, h5, h7, h9, hu, hc, hp]

/-- C12 amended, at the tag `FLOAT`. -/
theorem tags_outside_the_set_are_refused_witness :
    strncmpEq "FLOAT" "_CHAR*" 6 = false ∧ strncmpEq "FLOAT" "_CHAR" 5 = false ∧
    checkHDStype "FLOAT" = 0 ∧
    hds.pydat_get (storeOf [] "FLOAT" [1]) World.init 1 =
      ⟨{ World.init with
          calls := World.init.calls ++ [Call.errBegin, Call.datStruc 1, Call.datType 1,
            Call.datShape 1 7]
          errLevel := World.init.errLevel + 1
          pyerr := some ⟨PyExc.PyExc_IOError, "dat_get: encountered an unimplemented type"⟩ },
        PyRet.null⟩ :=
  ⟨by decide, by decide,
    (tags_outside_the_set_are_refused (storeOf [] "FLOAT" [1]) World.init 1 "FLOAT" "FLOAT"
      (by decide) (by decide) (by decide) (by decide) rfl rfl rfl rfl rfl (by decide)
      (by decide)).1,
    (tags_outside_the_set_are_refused (storeOf [] "FLOAT" [1]) World.init 1 "FLOAT" "FLOAT"
      (by decide) (by decide) (by decide) (by decide) rfl rfl rfl rfl rfl (by decide)
      (by decide)).2.1⟩

/-- C15, counterexample: for a `_CHAR*4` component, whose stored width is 4
bytes, the buffer that `get` creates has the element width 4, not 5, in both
modules. -/
theorem char_buffer_has_stored_width :
    ((storeOf [] "_CHAR*4" [1]).datLen 1).value = 4 ∧
    (hds.pydat_get (storeOf [] "_CHAR*4" [1]) World.init 1).ret =
      PyRet.array ⟨NpyType.NPY_STRING, 4, [], [1]⟩ ∧
    (ndf.pydat_get (storeOf [] "_CHAR*4" [1]) World.init 1).ret =
      PyRet.array ⟨NpyType.NPY_STRING, 4, [], [1]⟩ ∧
    (4 : Nat) ≠ 4 + 1 := by
  decide

/-- C15, amended: for every `_CHAR` component whose stored element width is
`n` bytes, the buffer that `get` creates has the element width `n`, in both
modules. -/
theorem char_buffer_width_is_stored_width (env : Env) (w : World) (loc : HDSLoc) (typ : String)
    (ndim : Int) (tdim items : List Int) (n : Nat)
    (hs : (env.datStruc loc).status = SAI__OK) (hv : (env.datStruc loc).value = 0)
    (ht : (env.datType loc).status = SAI__OK) (hty : (env.datType loc).value = typ)
    (hsh : (env.datShape loc 7).status = SAI__OK)
    (hdim : (env.datShape loc 7).value = ⟨ndim, tdim⟩)
    (hc : strncmpEq typ "_CHAR" 5 = true)
    (hl : (env.datLen loc).status = SAI__OK) (hn : (env.datLen loc).value = n)
    (ha : env.npyAlloc (reverseDims ndim tdim) = true)
    (hg : (env.datGet loc typ ndim tdim).status = SAI__OK)
    (hi : (env.datGet loc typ ndim tdim).value = items) :
    (hds.pydat_get env w loc).ret =
      PyRet.array ⟨NpyType.NPY_STRING, n, reverseDims ndim tdim, items⟩ ∧
    (ndf.pydat_get env w loc).ret =
      PyRet.array ⟨NpyType.NPY_STRING, n, reverseDims ndim tdim, items⟩ := by
  obtain ⟨n1, n2, n3, n4, _, _, _, _⟩ := char_tag_ne typ hc
  constructor
  · simp [hds.pydat_get, hds.pydat_get_read, hds.newArray, World.invoke, errBegin, hs, hv,
      ht, hty, hsh, hdim, ha, hg, hi, hl, hn, hc, n1, n2, n3, n4, raiseHDSException_ok]
  · simp [ndf.pydat_get, ndf.pydat_get_read, ndf.newArray, World.invoke, hs, hv,
      ht, hty, hsh, hdim, ha, hg, hi, hl, hn, hc, n1, n2, n3, n4]

/-- C15 amended, at a scalar `_CHAR*4` component. -/
theorem char_buffer_width_is_stored_width_witness :
    strncmpEq "_CHAR*4" "_CHAR" 5 = true ∧
    ((storeOf [] "_CHAR*4" [1]).datLen 1).value = 4 ∧
    (hds.pydat_get (storeOf [] "_CHAR*4" [1]) World.init 1).ret =
      PyRet.array ⟨NpyType.NPY_STRING, 4, reverseDims 0 [], [1]⟩ :=
  ⟨by decide, rfl,
    (char_buffer_width_is_stored_width (storeOf [] "_CHAR*4" [1]) World.init 1 "_CHAR*4" 0 []
      [1] 4 rfl rfl rfl rfl rfl rfl (by decide) rfl rfl rfl rfl rfl).1⟩

theorem calls_ne_append_singleton (l : List Call) (c : Call) : l ≠ l ++ [c] := by
  intro h
  have := congrArg List.length h
  simp at this

/-- C16, counterexample: `map` with the type `_CHAR*abc`, which is no tag of
the fixed set, passes every check and calls `ndfMap`; so does the bare type
`_CHAR`. -/
theorem map_reaches_ndfMap_outside_the_set :
    (ndf.pyndf_map sampleEnv World.init 1 "DATA" "_CHAR*abc" "READ").world.calls =
      [Call.ndfMap 1 "DATA" "_CHAR*abc" "READ"] ∧
    (ndf.pyndf_map sampleEnv World.init 1 "DATA" "_CHAR*abc" "READ").ret =
      PyRet.mapped ⟨1000, 120⟩ 120 ∧
    (ndf.pyndf_map sampleEnv World.init 1 "DATA" "_CHAR" "READ").world.calls =
      [Call.ndfMap 1 "DATA" "_CHAR" "READ"] := by
  decide

/-- C16, amended: for every type other than `_UWORD` and `UWORD`, `map`
reaches `ndfMap` if and only if `indf ≥ 0`, the component is one of `DATA`,
`QUALITY`, `VARIANCE`, `ERROR`, the mode is one of `READ`, `UPDATE`, `WRITE`,
the type is one of `_INTEGER`, `_REAL`, `_DOUBLE`, `_LOGICAL`, `_WORD`,
`_BYTE`, `_UBYTE`, is `_CHAR` or starts with `_CHAR*`, and the component
`QUALITY` comes with the type `_UBYTE`; in every other case `map` returns
`NULL` without any call to the collaborator and without setting an error. -/
theorem map_reaches_ndfMap_iff (env : Env) (w : World) (indf : Int) (comp type mmod : String) :
    type ≠ "_UWORD" → type ≠ "UWORD" →
    ((ndf.pyndf_map env w indf comp type mmod).world.calls =
        w.calls ++ [Call.ndfMap indf comp type mmod] ↔
      (0 ≤ indf ∧
        (comp = "DATA" ∨ comp = "QUALITY" ∨ comp = "VARIANCE" ∨ comp = "ERROR") ∧
        (mmod = "READ" ∨ mmod = "UPDATE" ∨ mmod = "WRITE") ∧
        (type = "_INTEGER" ∨ type = "_REAL" ∨ type = "_DOUBLE" ∨ type = "_LOGICAL" ∨
          type = "_WORD" ∨ type = "_BYTE" ∨ type = "_UBYTE" ∨ type = "_CHAR" ∨
          strncmpEq type "_CHAR*" 6 = true) ∧
        (comp = "QUALITY" → type = "_UBYTE"))) ∧
    (¬ (0 ≤ indf ∧
        (comp = "DATA" ∨ comp = "QUALITY" ∨ comp = "VARIANCE" ∨ comp = "ERROR") ∧
        (mmod = "READ" ∨ mmod = "UPDATE" ∨ mmod = "WRITE") ∧
        (type = "_INTEGER" ∨ type = "_REAL" ∨ type = "_DOUBLE" ∨ type = "_LOGICAL" ∨
          type = "_WORD" ∨ type = "_BYTE" ∨ type = "_UBYTE" ∨ type = "_CHAR" ∨
          strncmpEq type "_CHAR*" 6 = true) ∧
        (comp = "QUALITY" → type = "_UBYTE")) →
      ndf.pyndf_map env w indf comp type mmod = ⟨w, PyRet.null⟩) := by
  intro _ hu2
  have hck : checkHDStype type = 0 ↔
      ¬ (type = "_INTEGER" ∨ type = "_REAL" ∨ type = "_DOUBLE" ∨ type = "_LOGICAL" ∨
          type = "_WORD" ∨ type = "_BYTE" ∨ type = "_UBYTE" ∨ type = "_CHAR" ∨
          strncmpEq type "_CHAR*" 6 = true) := by
    unfold checkHDStype
    simp only [not_or, ne_eq, Bool.not_eq_true]
    split_ifs with h
    · obtain ⟨a1, a2, a3, a4, a5, _, a7, a8, a9, a10⟩ := h
      simp only [true_iff]
      exact ⟨a1, a2, a3, a4, a5, a7, a8, a9, a10⟩
    · simp only [one_ne_zero, false_iff]
      rintro ⟨a1, a2, a3, a4, a5, a7, a8, a9, a10⟩
      exact h ⟨a1, a2, a3, a4, a5, hu2, a7, a8, a9, a10⟩
  have hneg : ¬ (0 ≤ indf ∧
        (comp = "DATA" ∨ comp = "QUALITY" ∨ comp = "VARIANCE" ∨ comp = "ERROR") ∧
        (mmod = "READ" ∨ mmod = "UPDATE" ∨ mmod = "WRITE") ∧
        (type = "_INTEGER" ∨ type = "_REAL" ∨ type = "_DOUBLE" ∨ type = "_LOGICAL" ∨
          type = "_WORD" ∨ type = "_BYTE" ∨ type = "_UBYTE" ∨ type = "_CHAR" ∨
          strncmpEq type "_CHAR*" 6 = true) ∧
        (comp = "QUALITY" → type = "_UBYTE")) →
      ndf.pyndf_map env w indf comp type mmod = ⟨w, PyRet.null⟩ := by
    intro hn
    unfold ndf.pyndf_map
    by_cases c1 : indf < 0
    · rw [if_pos c1]
    rw [if_neg c1]
    by_cases c2 : comp ≠ "DATA" ∧ comp ≠ "QUALITY" ∧ comp ≠ "VARIANCE" ∧ comp ≠ "ERROR"
    · rw [if_pos c2]
    rw [if_neg c2]
    by_cases c3 : mmod ≠ "READ" ∧ mmod ≠ "UPDATE" ∧ mmod ≠ "WRITE"
    · rw [if_pos c3]
    rw [if_neg c3]
    by_cases c4 : checkHDStype type = 0
    · rw [if_pos c4]
    rw [if_neg c4]
    by_cases c5 : comp = "QUALITY" ∧ type ≠ "_UBYTE"
    · rw [if_pos c5]
    exfalso
    apply hn
    refine ⟨by omega, ?_, ?_, ?_, ?_⟩
    · by_contra h
      exact c2 ⟨fun e => h (Or.inl e), fun e => h (Or.inr (Or.inl e)),
        fun e => h (Or.inr (Or.inr (Or.inl e))), fun e => h (Or.inr (Or.inr (Or.inr e)))⟩
    · by_contra h
      exact c3 ⟨fun e => h (Or.inl e), fun e => h (Or.inr (Or.inl e)),
        fun e => h (Or.inr (Or.inr e))⟩
    · by_contra hx
      exact c4 (hck.mpr hx)
    · intro hq
      by_contra hx
      exact c5 ⟨hq, hx⟩
  refine ⟨⟨?_, ?_⟩, hneg⟩
  · intro hcalls
    by_contra hn
    rw [hneg hn] at hcalls
    exact calls_ne_append_singleton _ _ hcalls
  · rintro ⟨p1, p2, p3, p4, p5⟩
    have c4 : ¬ checkHDStype type = 0 := fun h => hck.mp h p4
    have c1 : ¬ indf < 0 := by omega
    have c2 : ¬ (comp ≠ "DATA" ∧ comp ≠ "QUALITY" ∧ comp ≠ "VARIANCE" ∧ comp ≠ "ERROR") := by
      rintro ⟨a1, a2, a3, a4⟩
      rcases p2 with e | e | e | e
      · exact a1 e
      · exact a2 e
      · exact a3 e
      · exact a4 e
    have c3 : ¬ (mmod ≠ "READ" ∧ mmod ≠ "UPDATE" ∧ mmod ≠ "WRITE") := by
      rintro ⟨a1, a2, a3⟩
      rcases p3 with e | e | e
      · exact a1 e
      · exact a2 e
      · exact a3 e
    have c5 : ¬ (comp = "QUALITY" ∧ type ≠ "_UBYTE") := fun h => h.2 (p5 h.1)
    unfold ndf.pyndf_map
    rw [if_neg c1, if_neg c2, if_neg c3, if_neg c4, if_neg c5]
    dsimp only
    split <;> rw [invoke_calls]

/-- C16 amended, at `map(1, "QUALITY", "_REAL", "READ")`. -/
theorem map_reaches_ndfMap_iff_witness :
    "_REAL" ≠ "_UWORD" ∧ "_REAL" ≠ "UWORD" ∧
    ndf.pyndf_map sampleEnv World.init 1 "QUALITY" "_REAL" "READ" = ⟨World.init, PyRet.null⟩ :=
  ⟨by decide, by decide,
    (map_reaches_ndfMap_iff sampleEnv World.init 1 "QUALITY" "_REAL" "READ" (by decide)
      (by decide)).2 (by decide)⟩

/-- C17: `unmap` reaches `ndfUnmap` if and only if `indf ≥ 0` and the
component is exactly one of `DATA`, `QUALITY`, `VARIANCE`, `AXIS` and `*`; in
every other case it returns `NULL` without any call to the collaborator. -/
theorem unmap_reaches_ndfUnmap_iff (env : Env) (w : World) (indf : Int) (comp : String) :
    ((ndf.pyndf_unmap env w indf comp).world.calls = w.calls ++ [Call.ndfUnmap indf comp] ↔
      (0 ≤ indf ∧ (comp = "DATA" ∨ comp = "QUALITY" ∨ comp = "VARIANCE" ∨ comp = "AXIS" ∨
        comp = "*"))) ∧
    (¬ (0 ≤ indf ∧ (comp = "DATA" ∨ comp = "QUALITY" ∨ comp = "VARIANCE" ∨ comp = "AXIS" ∨
        comp = "*")) →
      ndf.pyndf_unmap env w indf comp = ⟨w, PyRet.null⟩) := by
  have hneg : ¬ (0 ≤ indf ∧ (comp = "DATA" ∨ comp = "QUALITY" ∨ comp = "VARIANCE" ∨
        comp = "AXIS" ∨ comp = "*")) →
      ndf.pyndf_unmap env w indf comp = ⟨w, PyRet.null⟩ := by
    intro hn
    unfold ndf.pyndf_unmap
    by_cases c1 : indf < 0
    · rw [if_pos c1]
    rw [if_neg c1]
    by_cases c2 : comp ≠ "DATA" ∧ comp ≠ "QUALITY" ∧ comp ≠ "VARIANCE" ∧ comp ≠ "AXIS" ∧
        comp ≠ "*"
    · rw [if_pos c2]
    exfalso
    apply hn
    refine ⟨by omega, ?_⟩
    by_contra h
    exact c2 ⟨fun e => h (Or.inl e), fun e => h (Or.inr (Or.inl e)),
      fun e => h (Or.inr (Or.inr (Or.inl e))), fun e => h (Or.inr (Or.inr (Or.inr (Or.inl e)))),
      fun e => h (Or.inr (Or.inr (Or.inr (Or.inr e))))⟩
  refine ⟨⟨?_, ?_⟩, hneg⟩
  · intro hcalls
    by_contra hn
    rw [hneg hn] at hcalls
    exact calls_ne_append_singleton _ _ hcalls
  · rintro ⟨p1, p2⟩
    have c1 : ¬ indf < 0 := by omega
    have c2 : ¬ (comp ≠ "DATA" ∧ comp ≠ "QUALITY" ∧ comp ≠ "VARIANCE" ∧ comp ≠ "AXIS" ∧
        comp ≠ "*") := by
      rintro ⟨a1, a2, a3, a4, a5⟩
      rcases p2 with e | e | e | e | e
      · exact a1 e
      · exact a2 e
      · exact a3 e
      · exact a4 e
      · exact a5 e
    unfold ndf.pyndf_unmap
    rw [if_neg c1, if_neg c2]
    dsimp only
    split <;> rw [invoke_calls]

/-- C17, at `unmap(1, "ERROR")`, which is a mapping component but no
unmapping component. -/
theorem unmap_reaches_ndfUnmap_iff_witness :
    ndf.pyndf_unmap sampleEnv World.init 1 "ERROR" = ⟨World.init, PyRet.null⟩ ∧
    (ndf.pyndf_unmap sampleEnv World.init 1 "*").world.calls =
      World.init.calls ++ [Call.ndfUnmap 1 "*"] :=
  ⟨(unmap_reaches_ndfUnmap_iff sampleEnv World.init 1 "ERROR").2 (by decide),
    (unmap_reaches_ndfUnmap_iff sampleEnv World.init 1 "*").1.mpr (by decide)⟩

theorem raiseHDSException_pyerr (env : Env) (w : World) (status : Int) (h : status ≠ SAI__OK) :
    ∃ msg, (raiseHDSException env w status).world.pyerr =
      some ⟨if status = env.DAT__FILNF then PyExc.PyExc_IOError else PyExc.StarlinkHDSError,
        msg⟩ := by
  refine ⟨(drainLoop w.ems "" 1 0).errstring, ?_⟩
  simp [raiseHDSException, h, errEnd, World.setErr]

theorem raiseHDSException_count_annul (env : Env) (w : World) (status : Int) (l : HDSLoc) :
    (raiseHDSException env w status).world.calls.count (Call.datAnnul l) =
      w.calls.count (Call.datAnnul l) := by
  obtain ⟨rest, hr, hc⟩ := raiseHDSException_calls env w status
  rw [hr, List.count_append]
  have : rest.count (Call.datAnnul l) = 0 := by
    apply List.count_eq_zero.mpr
    intro hm
    rcases hc _ hm with h | h <;> cases h
  omega

theorem hds_annul_calls (env : Env) (w : World) (loc : HDSLoc) :
    ∃ rest, (hds.pydat_annul env w loc).world.calls =
        w.calls ++ [Call.errBegin, Call.datAnnul loc] ++ rest ∧
      ∀ c ∈ rest, c = Call.errLoad ∨ c = Call.errEnd := by
  obtain ⟨rest, hr, hc⟩ := raiseHDSException_calls env
    ((errBegin w).invoke SAI__OK (Call.datAnnul loc) (env.datAnnul (errBegin w).calls loc) ()).1
    ((errBegin w).invoke SAI__OK (Call.datAnnul loc) (env.datAnnul (errBegin w).calls loc) ()).2.1
  refine ⟨rest, ?_, hc⟩
  simp only [hds.pydat_annul]
  split <;> (rw [hr, invoke_calls]; simp [errBegin])

/-- C19, counterexample: on a store whose `datAnnul` does not notice that a
locator was released before, the second `annul` on the same object calls
`datAnnul` again with the same pointer and returns `None` with no error, in
both modules. -/
theorem second_annul_can_succeed :
    (hds.pydat_annul sampleEnv World.init 5).ret = PyRet.none ∧
    hds.pydat_annul sampleEnv (hds.pydat_annul sampleEnv World.init 5).world 5 =
      ⟨{ World.init with
          calls := [Call.errBegin, Call.datAnnul 5, Call.errBegin, Call.datAnnul 5]
          errLevel := 2 },
        PyRet.none⟩ ∧
    (ndf.pydat_annul sampleEnv World.init 5).ret = PyRet.none ∧
    ndf.pydat_annul sampleEnv (ndf.pydat_annul sampleEnv World.init 5).world 5 =
      ⟨{ World.init with calls := [Call.datAnnul 5, Call.datAnnul 5] }, PyRet.none⟩ := by
  decide

/-- C19, amended: `annul` keeps no validity flag.  After a successful `annul`
a second `annul` on the same object hands the same pointer to `datAnnul`
again and relays its answer: it returns `None` when `datAnnul` reports
success, and fails exactly when `datAnnul` reports a bad status; the `hds`
module then raises the error drained from the collaborator (`IOError` for
`DAT__FILNF`, the module error otherwise) and the `ndf` module returns `NULL`
without setting an error. -/
theorem second_annul_relays_datAnnul (env : Env) (w : World) (loc : HDSLoc) :
    ((hds.pydat_annul env w loc).ret = PyRet.none →
      (∃ rest, (hds.pydat_annul env (hds.pydat_annul env w loc).world loc).world.calls =
          (hds.pydat_annul env w loc).world.calls ++ [Call.errBegin, Call.datAnnul loc] ++
            rest ∧
        ∀ c ∈ rest, c = Call.errLoad ∨ c = Call.errEnd) ∧
      ((env.datAnnul ((hds.pydat_annul env w loc).world.calls ++ [Call.errBegin]) loc).status =
          SAI__OK →
        (hds.pydat_annul env (hds.pydat_annul env w loc).world loc).ret = PyRet.none) ∧
      ((env.datAnnul ((hds.pydat_annul env w loc).world.calls ++ [Call.errBegin]) loc).status ≠
          SAI__OK →
        (hds.pydat_annul env (hds.pydat_annul env w loc).world loc).ret = PyRet.null ∧
        ∃ msg, (hds.pydat_annul env (hds.pydat_annul env w loc).world loc).world.pyerr =
          some ⟨if (env.datAnnul ((hds.pydat_annul env w loc).world.calls ++
              [Call.errBegin]) loc).status = env.DAT__FILNF
            then PyExc.PyExc_IOError else PyExc.StarlinkHDSError, msg⟩)) ∧
    ((ndf.pydat_annul env w loc).ret = PyRet.none →
      (ndf.pydat_annul env (ndf.pydat_annul env w loc).world loc).world.calls =
        (ndf.pydat_annul env w loc).world.calls ++ [Call.datAnnul loc] ∧
      ((env.datAnnul (ndf.pydat_annul env w loc).world.calls loc).status = SAI__OK →
        (ndf.pydat_annul env (ndf.pydat_annul env w loc).world loc).ret = PyRet.none) ∧
      ((env.datAnnul (ndf.pydat_annul env w loc).world.calls loc).status ≠ SAI__OK →
        (ndf.pydat_annul env (ndf.pydat_annul env w loc).world loc).ret = PyRet.null ∧
        (ndf.pydat_annul env (ndf.pydat_annul env w loc).world loc).world.pyerr =
          (ndf.pydat_annul env w loc).world.pyerr)) := by
  constructor
  · intro _
    generalize (hds.pydat_annul env w loc).world = w1
    refine ⟨hds_annul_calls env w1 loc, ?_, ?_⟩
    · intro h
      simp [hds.pydat_annul, World.invoke, errBegin, h, raiseHDSException_ok]
    · intro h
      have hb := raiseHDSException_bad env
        ((errBegin w1).invoke SAI__OK (Call.datAnnul loc)
          (env.datAnnul (errBegin w1).calls loc) ()).1 _ h
      have hp := raiseHDSException_pyerr env
        ((errBegin w1).invoke SAI__OK (Call.datAnnul loc)
          (env.datAnnul (errBegin w1).calls loc) ()).1 _ h
      have hst : ((errBegin w1).invoke SAI__OK (Call.datAnnul loc)
          (env.datAnnul (errBegin w1).calls loc) ()).2.1 =
          (env.datAnnul (w1.calls ++ [Call.errBegin]) loc).status := by
        simp [World.invoke, errBegin, h]
      simp only [hds.pydat_annul, hst, hb]
      exact ⟨by simp, hp⟩
  · intro _
    generalize (ndf.pydat_annul env w loc).world = w1
    refine ⟨?_, ?_, ?_⟩
    · simp only [ndf.pydat_annul]
      split <;> rw [invoke_calls]
    · intro h
      simp [ndf.pydat_annul, World.invoke, h]
    · intro h
      simp [ndf.pydat_annul, World.invoke, h]

/-- C19 amended, at a store whose `datAnnul` reports a released locator. -/
theorem second_annul_relays_datAnnul_witness :
    (hds.pydat_annul trackingStore World.init 5).ret = PyRet.none ∧
    (trackingStore.datAnnul ((hds.pydat_annul trackingStore World.init 5).world.calls ++
      [Call.errBegin]) 5).status ≠ SAI__OK ∧
    (hds.pydat_annul trackingStore (hds.pydat_annul trackingStore World.init 5).world 5).ret =
      PyRet.null :=
  ⟨by decide, by decide,
    (((second_annul_relays_datAnnul trackingStore World.init 5).1 (by decide)).2.2
      (by decide)).1⟩

/-- C20, the defect: `HDS_create_object` hands `HDS_init` the capsule itself
where a tuple is required, so the object that `find` returns keeps
`_locator = Py_None`, a `SystemError` is left set and the capsule that holds
the new locator 5 is leaked.  `HDS_retrieve_locator` then gives the null
pointer: an `annul` calls `datAnnul` on it, the destruction of the object
calls nothing, and the handle 5 is never released.  In the ndf module `find`
returns its object with two references for the one the caller owns, so the
destructor `PyDelLoc` does not run when the caller gives the object up: the
handle is released by `dat_annul` calls alone, and not at all without one. -/
theorem navigation_handle_is_not_released_once :
    (sampleEnv.datFind 4 "X").status = SAI__OK ∧ (sampleEnv.datFind 4 "X").value = 5 ∧
    hds.pydat_find sampleEnv World.init 4 "X" =
      ⟨⟨[Call.errBegin, Call.datFind 4 "X"], [], 1, some ⟨PyExc.PyExc_SystemError, ""⟩⟩,
        PyRet.hdsObject ⟨none⟩⟩ ∧
    hds.HDS_retrieve_locator ⟨none⟩ = 0 ∧
    (hds.HDS_dealloc sampleEnv
      (hds.pydat_annul sampleEnv (hds.pydat_find sampleEnv World.init 4 "X").world
        (hds.HDS_retrieve_locator ⟨none⟩)).world ⟨none⟩).calls =
      [Call.errBegin, Call.datFind 4 "X", Call.errBegin, Call.datAnnul 0] ∧
    (hds.HDS_dealloc sampleEnv (hds.pydat_find sampleEnv World.init 4 "X").world
      ⟨none⟩).calls = [Call.errBegin, Call.datFind 4 "X"] ∧
    (∀ (env : Env) (w : World) (locator : HDSLoc),
      (hds.HDS_create_object env w locator).2 = ⟨none⟩ ∧
      hds.HDS_dealloc env w (hds.HDS_create_object env w locator).2 = w) ∧
    ndf.pydat_find sampleEnv World.init 4 "X" =
      ⟨⟨[Call.datFind 4 "X"], [], 0, none⟩, PyRet.cobject ⟨5, 2⟩⟩ ∧
    Py_DECREF (ndf.PyDelLoc sampleEnv) (ndf.pydat_find sampleEnv World.init 4 "X").world
      ⟨5, 2⟩ = (⟨[Call.datFind 4 "X"], [], 0, none⟩, ⟨5, 1⟩) ∧
    (Py_DECREF (ndf.PyDelLoc sampleEnv)
      (ndf.pydat_annul sampleEnv (ndf.pydat_find sampleEnv World.init 4 "X").world 5).world
      ⟨5, 2⟩).1.calls = [Call.datFind 4 "X", Call.datAnnul 5] ∧
    ∀ (env : Env) (w : World) (loc : HDSLoc),
      Py_DECREF (ndf.PyDelLoc env) w (Py_BuildValue_O (ndf.PyCObject_FromVoidPtr loc)) =
        (w, ⟨loc, 1⟩) := by
  refine ⟨rfl, rfl, by decide, rfl, by decide, by decide, ?_, by decide, by decide, by decide,
    ?_⟩
  · intro env w locator
    exact ⟨rfl, rfl⟩
  · intro env w loc
    rfl

/-- Joining strings: the first string comes first. -/
theorem join_cons (a : String) (l : List String) : String.join (a :: l) = a ++ String.join l := by
  apply String.ext
  simp [String.join_eq]

/-- Bytes of a concatenation. -/
theorem utf8ByteSize_append (s t : String) :
    (s ++ t).utf8ByteSize = s.utf8ByteSize + t.utf8ByteSize := by
  cases s; cases t
  show String.utf8ByteSize ⟨_ ++ _⟩ = _
  simp only [String.utf8ByteSize_mk, String.utf8Len_append]

/-- Closed form of the drain loop on frames that all carry an error status:
every frame is pulled and appended, and one more pull reports exhaustion. -/
theorem drainLoop_all_bad (fs : List Frame) (h : ∀ f ∈ fs, f.status ≠ SAI__OK) :
    ∀ (acc : String) (len pulls : Nat),
    drainLoop fs acc len pulls =
      ⟨[], acc ++ String.join (fs.map fun f => f.msg ++ "\n"),
        len + (fs.map fun f => f.oplen + 1).sum, pulls + fs.length + 1, SAI__OK⟩ := by
  induction fs with
  | nil => intro acc len pulls; simp [drainLoop, String.join]
  | cons f fs ih =>
    intro acc len pulls
    have hf : f.status ≠ SAI__OK := h f (List.mem_cons_self _ _)
    have ih2 := ih (fun g hg => h g (List.mem_cons_of_mem _ hg))
    rw [drainLoop, if_pos hf, ih2]
    simp only [List.map_cons, join_cons, List.sum_cons, List.length_cons, String.append_assoc]
    congr 1 <;> omega
/-- Joining newline-terminated strings is intercalating newlines and adding
the last newline. -/
theorem intercalate_go_newline (s : String) (l : List String) :
    ∀ acc : String,
    String.intercalate.go acc s l ++ s = acc ++ s ++ String.join (l.map fun m => m ++ s) := by
  induction l with
  | nil => intro acc; simp [String.intercalate.go, String.join]
  | cons a l ih =>
    intro acc
    rw [String.intercalate.go, ih, List.map_cons, join_cons]
    simp only [String.append_assoc]

/-- A non-empty list of newline-terminated strings, joined. -/
theorem join_newline_terminated (l : List String) (h : l ≠ []) :
    String.join (l.map fun m => m ++ "\n") = String.intercalate "\n" l ++ "\n" := by
  cases l with
  | nil => exact absurd rfl h
  | cons a l =>
    rw [String.intercalate, intercalate_go_newline, List.map_cons, join_cons]

/-- The whole of `raiseHDSException` on an error status and a stack of error
frames. -/
theorem raiseHDSException_all_bad (env : Env) (w : World) (status : Int)
    (hs : status ≠ SAI__OK) (hb : ∀ f ∈ w.ems, f.status ≠ SAI__OK) :
    raiseHDSException env w status =
      ⟨{ calls := w.calls ++ List.replicate (w.ems.length + 1) Call.errLoad ++ [Call.errEnd]
         ems := []
         errLevel := w.errLevel - 1
         pyerr := some ⟨if status = env.DAT__FILNF then PyExc.PyExc_IOError
            else PyExc.StarlinkHDSError, String.join (w.ems.map fun f => f.msg ++ "\n")⟩ },
        SAI__OK, 1⟩ := by
  simp only [raiseHDSException, if_neg hs, drainLoop_all_bad w.ems hb, errEnd, World.setErr]
  simp [String.join]

/-- C21, counterexample: with the one message `Object not found` pending, the
message of the error raised is that message followed by a newline, and with
two messages pending the text ends with a newline after the second: the
loop appends a newline after every message, the last included, so the text
is not the messages separated by newlines. -/
theorem flush_message_ends_with_a_newline :
    (raiseHDSException sampleEnv { World.init with ems := [objectNotFound] }
      147358547).world.pyerr = some ⟨PyExc.StarlinkHDSError, "Object not found\n"⟩ ∧
    String.intercalate "\n" ([objectNotFound].map fun f => f.msg) = "Object not found" ∧
    (raiseHDSException sampleEnv { World.init with ems := [objectNotFound] }
      147358547).world.pyerr ≠
      some ⟨PyExc.StarlinkHDSError,
        String.intercalate "\n" ([objectNotFound].map fun f => f.msg)⟩ ∧
    (raiseHDSException sampleEnv
      { World.init with
        ems := [objectNotFound, ⟨"DAT_FIND_ERR", "datFind failed", 14, 147358547⟩] }
      147358547).world.pyerr =
      some ⟨PyExc.StarlinkHDSError, "Object not found\ndatFind failed\n"⟩ := by
  decide

/-- C21, amended: when `raiseHDSException` is entered with an error status
and a non-empty stack of error frames with the messages m1..mn, oldest
first, the one error it leaves set has as its message every one of the n
messages, in that order, each once and each followed by a newline: the
messages separated by newlines, and a newline after the last. -/
theorem flush_message_is_all_frames_in_order (env : Env) (w : World) (status : Int)
    (hs : status ≠ SAI__OK) (hne : w.ems ≠ []) (hb : ∀ f ∈ w.ems, f.status ≠ SAI__OK) :
    (raiseHDSException env w status).world.pyerr =
      some ⟨if status = env.DAT__FILNF then PyExc.PyExc_IOError else PyExc.StarlinkHDSError,
        String.intercalate "\n" (w.ems.map fun f => f.msg) ++ "\n"⟩ ∧
    String.intercalate "\n" (w.ems.map fun f => f.msg) ++ "\n" =
      String.join (w.ems.map fun f => f.msg ++ "\n") := by
  have hj : String.join (w.ems.map fun f => f.msg ++ "\n") =
      String.intercalate "\n" (w.ems.map fun f => f.msg) ++ "\n" := by
    rw [← join_newline_terminated _ (by simpa using hne), List.map_map]
    rfl
  rw [raiseHDSException_all_bad env w status hs hb, hj]
  exact ⟨rfl, rfl⟩

/-- C21 amended, at a stack of two frames. -/
theorem flush_message_is_all_frames_in_order_witness :
    (raiseHDSException sampleEnv
      { World.init with ems := [objectNotFound, ⟨"DAT_FIND_ERR", "datFind failed", 14, 147358547⟩] }
      147358547).world.pyerr =
      some ⟨PyExc.StarlinkHDSError, "Object not found\ndatFind failed\n"⟩ := by
  have h := (flush_message_is_all_frames_in_order sampleEnv
    { World.init with ems := [objectNotFound, ⟨"DAT_FIND_ERR", "datFind failed", 14, 147358547⟩] }
    147358547 (by decide) (by decide) (by decide)).1
  rw [h]
  decide

/-- C22: the outcome of `raiseHDSException` follows the status on entry.
With `SAI__OK` it returns 0 and leaves the state as it was: no error set, no
call made.  With `DAT__FILNF` it returns 1 and the error set is an
`IOError`; with any other status it returns 1 and the error set is a
`starlink.hds.error`. -/
theorem flush_outcome_follows_entry_status (env : Env) (w : World) (status : Int)
    (hf : env.DAT__FILNF ≠ SAI__OK) :
    (status = SAI__OK → raiseHDSException env w status = ⟨w, SAI__OK, 0⟩) ∧
    (status = env.DAT__FILNF →
      (raiseHDSException env w status).ret = 1 ∧
      ∃ msg, (raiseHDSException env w status).world.pyerr = some ⟨PyExc.PyExc_IOError, msg⟩) ∧
    (status ≠ SAI__OK → status ≠ env.DAT__FILNF →
      (raiseHDSException env w status).ret = 1 ∧
      ∃ msg, (raiseHDSException env w status).world.pyerr =
        some ⟨PyExc.StarlinkHDSError, msg⟩) := by
  refine ⟨?_, ?_, ?_⟩
  · intro h
    rw [h]
    simp [raiseHDSException]
  · intro h
    have hs : status ≠ SAI__OK := by rw [h]; exact hf
    obtain ⟨msg, hm⟩ := raiseHDSException_pyerr env w status hs
    rw [if_pos h] at hm
    exact ⟨raiseHDSException_bad env w status hs, msg, hm⟩
  · intro hs h
    obtain ⟨msg, hm⟩ := raiseHDSException_pyerr env w status hs
    rw [if_neg h] at hm
    exact ⟨raiseHDSException_bad env w status hs, msg, hm⟩

/-- C22, at the status `DAT__FILNF` of the sample store, with one frame
pending. -/
theorem flush_outcome_follows_entry_status_witness :
    sampleEnv.DAT__FILNF ≠ SAI__OK ∧
    (raiseHDSException sampleEnv { World.init with ems := [objectNotFound] }
      sampleEnv.DAT__FILNF).ret = 1 ∧
    ∃ msg, (raiseHDSException sampleEnv { World.init with ems := [objectNotFound] }
      sampleEnv.DAT__FILNF).world.pyerr = some ⟨PyExc.PyExc_IOError, msg⟩ :=
  ⟨by decide,
    (flush_outcome_follows_entry_status sampleEnv { World.init with ems := [objectNotFound] }
      sampleEnv.DAT__FILNF (by decide)).2.1 rfl⟩

/-- C23: on a stack of n error frames the drain loop of `raiseHDSException`
ends after n + 1 calls of `errLoad`, the last of which reports `SAI__OK`
for the exhausted stack; `raiseHDSException` then makes its one call of
`errEnd` and returns with the stack empty and the status `SAI__OK`. -/
theorem flush_drains_the_stack (env : Env) (w : World) (status : Int)
    (hs : status ≠ SAI__OK) (hb : ∀ f ∈ w.ems, f.status ≠ SAI__OK) :
    (drainLoop w.ems "" 1 0).pulls = w.ems.length + 1 ∧
    (drainLoop w.ems "" 1 0).status = SAI__OK ∧
    (drainLoop w.ems "" 1 0).ems = [] ∧
    (raiseHDSException env w status).world.calls =
      w.calls ++ List.replicate (w.ems.length + 1) Call.errLoad ++ [Call.errEnd] ∧
    (raiseHDSException env w status).world.ems = [] ∧
    (raiseHDSException env w status).status = SAI__OK := by
  rw [raiseHDSException_all_bad env w status hs hb, drainLoop_all_bad w.ems hb]
  simp

/-- C23, at a stack of two frames: three pulls. -/
theorem flush_drains_the_stack_witness :
    (drainLoop [objectNotFound, objectNotFound] "" 1 0).pulls = 3 ∧
    (raiseHDSException sampleEnv { World.init with ems := [objectNotFound, objectNotFound] }
      147358547).world.ems = [] ∧
    (raiseHDSException sampleEnv { World.init with ems := [objectNotFound, objectNotFound] }
      147358547).status = SAI__OK :=
  have h := flush_drains_the_stack sampleEnv
    { World.init with ems := [objectNotFound, objectNotFound] } 147358547 (by decide)
    (by decide)
  ⟨h.1, h.2.2.2.2.1, h.2.2.2.2.2⟩

/-- C30: let the drain loop of `raiseHDSException` have appended the error
frames `fs`, each with `oplen` equal to the number of bytes of its message.
Then `stringlen` is 1 plus the sum of `oplen + 1` over `fs`, which is the
number of bytes of the string composed so far plus one for the terminator;
these are the values with which the loop goes on to the frames that follow.
When the next frame `f` is appended, the string with the message, the
newline and the terminator fills the enlarged allocation exactly. -/
theorem drain_allocation_fits (fs : List Frame) (f : Frame) (rest : List Frame)
    (hb : ∀ g ∈ fs, g.status ≠ SAI__OK)
    (hl : ∀ g ∈ fs, g.oplen = g.msg.utf8ByteSize)
    (hf : f.oplen = f.msg.utf8ByteSize) :
    (drainLoop fs "" 1 0).stringlen = 1 + (fs.map fun g => g.oplen + 1).sum ∧
    (drainLoop fs "" 1 0).stringlen = (drainLoop fs "" 1 0).errstring.utf8ByteSize + 1 ∧
    drainLoop (fs ++ rest) "" 1 0 =
      drainLoop rest (drainLoop fs "" 1 0).errstring (drainLoop fs "" 1 0).stringlen
        fs.length ∧
    (((drainLoop fs "" 1 0).errstring ++ f.msg) ++ "\n").utf8ByteSize + 1 =
      (drainLoop fs "" 1 0).stringlen + (f.oplen + 1) := by
  have hsum : ∀ (l : List Frame), (∀ g ∈ l, g.oplen = g.msg.utf8ByteSize) →
      (String.join (l.map fun g => g.msg ++ "\n")).utf8ByteSize =
        (l.map fun g => g.oplen + 1).sum := by
    intro l
    induction l with
    | nil => intro _; rfl
    | cons a l ih =>
      intro h
      rw [List.map_cons, join_cons, utf8ByteSize_append, utf8ByteSize_append,
        ih (fun g hg => h g (List.mem_cons_of_mem _ hg)), List.map_cons, List.sum_cons,
        h a (List.mem_cons_self _ _)]
      rfl
  have happ : ∀ (l : List Frame), (∀ g ∈ l, g.status ≠ SAI__OK) →
      ∀ (acc : String) (len pulls : Nat),
      drainLoop (l ++ rest) acc len pulls =
        drainLoop rest (drainLoop l acc len pulls).errstring
          (drainLoop l acc len pulls).stringlen (pulls + l.length) := by
    intro l
    induction l with
    | nil => intro _ acc len pulls; simp [drainLoop]
    | cons a l ih =>
      intro h acc len pulls
      have ha : a.status ≠ SAI__OK := h a (List.mem_cons_self _ _)
      rw [List.cons_append, drainLoop, if_pos ha, ih (fun g hg => h g (List.mem_cons_of_mem _ hg)),
        drainLoop, if_pos ha, List.length_cons]
      congr 1
      omega
  have hd := drainLoop_all_bad fs hb "" 1 0
  have h0 : ("" : String).utf8ByteSize = 0 := rfl
  have h1 : ("\n" : String).utf8ByteSize = 1 := rfl
  refine ⟨?_, ?_, ?_, ?_⟩
  · rw [hd]
  · rw [hd]
    simp only [utf8ByteSize_append, hsum fs hl, h0]
    omega
  · have := happ fs hb "" 1 0
    rw [this]
    simp
  · rw [hd]
    simp only [utf8ByteSize_append, hsum fs hl, h0, h1, hf]
    omega

/-- C30, at one appended frame and a second to follow. -/
theorem drain_allocation_fits_witness :
    (drainLoop [objectNotFound] "" 1 0).stringlen = 18 ∧
    (drainLoop [objectNotFound] "" 1 0).errstring.utf8ByteSize + 1 = 18 ∧
    (((drainLoop [objectNotFound] "" 1 0).errstring ++ objectNotFound.msg) ++
      "\n").utf8ByteSize + 1 = 18 + 17 := by
  have h := drain_allocation_fits [objectNotFound] objectNotFound [] (by decide)
    (by decide) (by decide)
  refine ⟨h.1, ?_, ?_⟩
  · rw [← h.2.1, h.1]
    rfl
  · rw [h.2.2.2, h.1]
    rfl

/-- The successor of a C `int`, wrapped, determines the `int`. -/
theorem wrapInt_succ_inj (x y : Int) (hx : INT_MIN ≤ x ∧ x ≤ INT_MAX)
    (hy : INT_MIN ≤ y ∧ y ≤ INT_MAX) (h : wrapInt (x + 1) = wrapInt (y + 1)) : x = y := by
  unfold wrapInt at h
  unfold INT_MIN INT_MAX at hx hy
  omega

/-- C29: let a store object have the shape `d`, so that `shape()` returns `d`
reversed, and let `c` be an index sequence of the same length with
`0 ≤ c[i] < reverse(d)[i]` at every position.  Then the subscripts `t` that
`cell` hands to `datCell` satisfy `1 ≤ t[j] ≤ d[j]` at every position `j`.
The translation is injective: two index sequences of C `int` values with
the same subscripts are equal (and so have the same length). -/
theorem cell_translation_agrees_with_shape (d c : List Int)
    (hlen : c.length = d.length)
    (hd : ∀ x ∈ d, x ≤ INT_MAX)
    (hc : ∀ i, i < c.length → 0 ≤ c.getD i 0 ∧ c.getD i 0 < (reverseShape d).getD i 0) :
    (cellSubscripts c).length = d.length ∧
    (∀ j, j < d.length →
      1 ≤ (cellSubscripts c).getD j 0 ∧ (cellSubscripts c).getD j 0 ≤ d.getD j 0) ∧
    (∀ c1 c2 : List Int, (∀ x ∈ c1, INT_MIN ≤ x ∧ x ≤ INT_MAX) →
      (∀ x ∈ c2, INT_MIN ≤ x ∧ x ≤ INT_MAX) →
      cellSubscripts c1 = cellSubscripts c2 → c1 = c2) := by
  have hget : ∀ i, i < c.length → 0 ≤ c.getD i 0 ∧ c.getD i 0 < d.getD (d.length - 1 - i) 0 := by
    intro i hi
    have h := hc i hi
    rw [reverseShape_eq, getD_reverse d i (by omega)] at h
    exact h
  have hrange : ∀ x ∈ c, INT_MIN ≤ x ∧ x < INT_MAX := by
    intro x hx
    obtain ⟨i, hi, rfl⟩ := List.getElem_of_mem hx
    have h := hget i hi
    have hi2 : d.length - 1 - i < d.length := by omega
    have hm : d.getD (d.length - 1 - i) 0 ∈ d := by
      rw [List.getD_eq_getElem _ _ hi2]
      exact List.getElem_mem _
    have hmax := hd _ hm
    rw [List.getD_eq_getElem _ _ hi] at h
    unfold INT_MIN
    unfold INT_MAX at hmax ⊢
    omega
  have heq := cellSubscripts_eq c hrange
  refine ⟨by simp [cellSubscripts, hlen], ?_, ?_⟩
  · intro j hj
    have hj2 : c.length - 1 - j < c.length := by omega
    have h4 : j < (List.map (fun x => x + 1) c).reverse.length := by simpa [hlen] using hj
    have h := hget (c.length - 1 - j) hj2
    have hidx : d.length - 1 - (c.length - 1 - j) = j := by omega
    rw [hidx] at h
    have hv : (cellSubscripts c).getD j 0 = c.getD (c.length - 1 - j) 0 + 1 := by
      rw [heq]
      simp [List.getD_eq_getElem?_getD, List.getElem?_eq_getElem hj2,
        List.getElem?_eq_getElem h4, List.getElem_reverse]
    rw [hv]
    omega
  · intro c1 c2 h1 h2 h
    have e1 : cellSubscripts c1 = (c1.map fun x => wrapInt (x + 1)).reverse :=
      revLoop_eq (fun x => wrapInt (x + 1)) c1
    have e2 : cellSubscripts c2 = (c2.map fun x => wrapInt (x + 1)).reverse :=
      revLoop_eq (fun x => wrapInt (x + 1)) c2
    rw [e1, e2] at h
    have hm := List.reverse_injective h
    have hl : c1.length = c2.length := by simpa using congrArg List.length hm
    apply List.ext_getElem hl
    intro i hi1 hi2
    have hg : (c1.map fun x => wrapInt (x + 1))[i]? = (c2.map fun x => wrapInt (x + 1))[i]? := by
      rw [hm]
    simp only [List.getElem?_map, List.getElem?_eq_getElem hi1, List.getElem?_eq_getElem hi2,
      Option.map_some', Option.some.injEq] at hg
    exact wrapInt_succ_inj _ _ (h1 _ (List.getElem_mem _)) (h2 _ (List.getElem_mem _)) hg

/-- C29, at the store shape 4, 5, 6 and its last cell: the caller index
5, 4, 3 becomes the subscripts 4, 5, 6. -/
theorem cell_translation_agrees_with_shape_witness :
    reverseShape [4, 5, 6] = [6, 5, 4] ∧
    cellSubscripts [5, 4, 3] = [4, 5, 6] ∧
    (∀ j, j < ([4, 5, 6] : List Int).length →
      1 ≤ (cellSubscripts [5, 4, 3]).getD j 0 ∧
      (cellSubscripts [5, 4, 3]).getD j 0 ≤ ([4, 5, 6] : List Int).getD j 0) :=
  ⟨by decide, by decide,
    (cell_translation_agrees_with_shape [4, 5, 6] [5, 4, 3] rfl (by decide)
      (by decide)).2.1⟩

/-- C25, the defect: `pyndf_xstat` parses its arguments with the format
`"isi"`, which asks for three arguments.  Called with the two documented
arguments, an identifier and an extension name, it fails in the parsing:
it returns `NULL` with a `TypeError` set and never calls `ndfXstat`. -/
theorem xstat_refuses_its_documented_arguments (env : Env) (w : World) (indf : Int)
    (xname : String) :
    ndf.pyndf_xstat env w [PyArg.int indf, PyArg.str xname] =
      ⟨w.setErr PyExc.PyExc_TypeError "", PyRet.null⟩ ∧
    (ndf.pyndf_xstat env w [PyArg.int indf, PyArg.str xname]).world.calls = w.calls := by
  have h : ndf.parseUnits "isi".data [PyArg.int indf, PyArg.str xname] = false := by
    have hd : "isi".data = ['i', 's', 'i'] := rfl
    rw [hd]
    simp [ndf.parseUnits]
  refine ⟨?_, ?_⟩
  · simp [ndf.pyndf_xstat, h]
  · simp [ndf.pyndf_xstat, h, World.setErr]

/-- C27, the defect: `raiseHDSException` returns before its `errEnd` when the
status is `SAI__OK`, so an operation of `hds.c` that succeeds leaves the
error context it opened with `errBegin` open.  On the sample store the
fifteen operations succeed and each leaves the nesting depth at 1 from 0,
`name`, `find`, `valid` and `annul` with `errBegin` and their one call as
the whole trace (the error that `find` leaves set comes from
`HDS_create_object`); two calls in a row leave the depth at 2.  A `find`
that fails leaves it at 0. -/
theorem success_leaves_the_error_context_open :
    hds.pydat_name sampleEnv World.init 1 =
      ⟨⟨[Call.errBegin, Call.datName 1], [], 1, none⟩, PyRet.str "DATA_ARRAY"⟩ ∧
    (hds.pydat_find sampleEnv World.init 1 "DATA").world =
      ⟨[Call.errBegin, Call.datFind 1 "DATA"], [], 1,
        some ⟨PyExc.PyExc_SystemError, ""⟩⟩ ∧
    (hds.pydat_valid sampleEnv World.init 1).world =
      ⟨[Call.errBegin, Call.datValid 1], [], 1, none⟩ ∧
    (hds.pydat_annul sampleEnv World.init 1).world =
      ⟨[Call.errBegin, Call.datAnnul 1], [], 1, none⟩ ∧
    (hds.pydat_shape sampleEnv World.init 1).world.errLevel = 1 ∧
    (hds.pydat_get sampleEnv World.init 1).world.errLevel = 1 ∧
    (hds.pydat_cell sampleEnv World.init 1 (some [0, 0, 0])).world.errLevel = 1 ∧
    (hds.pydat_index sampleEnv World.init 1 0).world.errLevel = 1 ∧
    (hds.pydat_ncomp sampleEnv World.init 1).world.errLevel = 1 ∧
    (hds.pydat_state sampleEnv World.init 1).world.errLevel = 1 ∧
    (hds.pydat_struc sampleEnv World.init 1).world.errLevel = 1 ∧
    (hds.pydat_type sampleEnv World.init 1).world.errLevel = 1 ∧
    (hds.pydat_new sampleEnv World.init 1 "X" "_REAL" 0 []).world.errLevel = 1 ∧
    (hds.pydat_put sampleEnv World.init 1 "_REAL" 0 [] sixReals).world.errLevel = 1 ∧
    (hds.pydat_putc sampleEnv World.init 1 sixReals 4).world.errLevel = 1 ∧
    (hds.pydat_name sampleEnv (hds.pydat_name sampleEnv World.init 1).world 1).world.errLevel =
      2 ∧
    (hds.pydat_find failingStore World.init 1 "DATA").world.errLevel = 0 := by
  decide

/-- The index at which `pyndf_aread` reads `idim` for an axis from 0 to
`ndim - 1`: it is `ndim - iaxis - 1`, inside the array. -/
theorem aread_lookup_in_range (env : Env) (w : World) (indf iaxis ndim : Int) (comp : String)
    (hok : (env.ndfDim indf 10).status = SAI__OK)
    (hnd : (env.ndfDim indf 10).value.ndim = ndim)
    (h1 : ndim ≤ INT_MAX) (ha : 0 ≤ iaxis) (hb : iaxis ≤ ndim - 1)
    (hs : (env.ndfAstat indf comp (ndim - iaxis)).status = SAI__OK)
    (hv : (env.ndfAstat indf comp (ndim - iaxis)).value ≠ 0) :
    (ndf.pyndf_aread env w indf comp iaxis).lookup = some (ndim - iaxis - 1) ∧
    0 ≤ ndim - iaxis - 1 ∧ ndim - iaxis - 1 ≤ ndim - 1 := by
  have hw : wrapInt (ndim - iaxis - 1) = ndim - iaxis - 1 := by
    apply wrapInt_of_range <;> simp only [INT_MIN, INT_MAX] at * <;> omega
  refine ⟨?_, by omega, by omega⟩
  simp only [ndf.pyndf_aread, tr_iaxis_in_range env w indf iaxis ndim hok hnd h1 ha hb,
    invoke_ok _ _ _ _ hs, invoke_ok _ _ _ _ hok, hw]
  simp only [ne_eq, not_true_eq_false, if_false, hv]
  repeat' split
  all_goals rfl

/-- C28, the defect: `tr_iaxis` accepts `iaxis = -1` and answers 0, and with
`naxis = 0` the lookup `idim[naxis-1]` of `pyndf_aread` is made at the index
-1, outside `[0, ndim-1]`.  It is reached whenever `ndfAstat` reports the
axis component present and `ndfDim` succeeds. -/
theorem aread_looks_up_before_the_array (env : Env) (w : World) (indf : Int) (comp : String)
    (hs : (env.ndfAstat indf comp 0).status = SAI__OK)
    (hv : (env.ndfAstat indf comp 0).value ≠ 0)
    (hok : (env.ndfDim indf 10).status = SAI__OK) :
    ndf.tr_iaxis env w indf (-1) SAI__OK = ⟨w, SAI__OK, 0⟩ ∧
    (ndf.pyndf_aread env w indf comp (-1)).lookup = some (-1) := by
  have hw : wrapInt (0 - 1) = -1 := by decide
  refine ⟨tr_iaxis_sentinel env w indf SAI__OK, ?_⟩
  simp only [ndf.pyndf_aread, tr_iaxis_sentinel, invoke_ok _ _ _ _ hs, invoke_ok _ _ _ _ hok, hw]
  simp only [ne_eq, not_true_eq_false, if_false, hv]
  repeat' split
  all_goals rfl

/-- C28, at the three-dimensional sample store: the index is -1 for the axis
-1. -/
theorem aread_looks_up_before_the_array_witness :
    (ndf.pyndf_aread sampleEnv World.init 1 "CENTRE" (-1)).lookup = some (-1) :=
  (aread_looks_up_before_the_array sampleEnv World.init 1 "CENTRE" rfl (by decide) rfl).2

/-- A call that fails: its messages go onto the stack. -/
theorem invoke_fail {α : Type} (w : World) (c : Call) (r : Reply α) (dflt : α)
    (h : r.status ≠ SAI__OK) :
    w.invoke SAI__OK c r dflt =
      ({ w with calls := w.calls ++ [c], ems := w.ems ++ r.report }, r.status, r.value) := by
  simp [World.invoke, h]

/-- The flush after a sequence of calls `mid` made since `errBegin`, with the
error status `st` and the frames `rep` added to the stack. -/
theorem flush_after_failure (env : Env) (w : World) (mid : List Call) (st : Int)
    (rep : List Frame) (pe : Option PyErr)
    (hw : ∀ f ∈ w.ems, f.status ≠ SAI__OK) (hst : st ≠ SAI__OK)
    (hrep : ∀ f ∈ rep, f.status ≠ SAI__OK) :
    raiseHDSException env
      ⟨w.calls ++ [Call.errBegin] ++ mid, w.ems ++ rep, w.errLevel + 1, pe⟩ st =
      ⟨⟨w.calls ++ [Call.errBegin] ++ mid ++
          List.replicate (w.ems.length + rep.length + 1) Call.errLoad ++ [Call.errEnd],
        [], w.errLevel,
        some ⟨if st = env.DAT__FILNF then PyExc.PyExc_IOError else PyExc.StarlinkHDSError,
          String.join ((w.ems ++ rep).map fun f => f.msg ++ "\n")⟩⟩, SAI__OK, 1⟩ := by
  have hall : ∀ f ∈ (⟨w.calls ++ [Call.errBegin] ++ mid, w.ems ++ rep, w.errLevel + 1, pe⟩ :
      World).ems, f.status ≠ SAI__OK := by
    intro f hf
    rcases List.mem_append.mp hf with h | h
    · exact hw f h
    · exact hrep f h
  rw [raiseHDSException_all_bad env _ st hst hall]
  simp

/-- The statements of `pydat_get` of `hds.c` after the type dispatch, when
the array was created and `datGet` fails. -/
theorem hds_get_read_fails (env : Env) (w0 : World) (self : HDSLoc)
    (typ : String) (ndim : Int) (tdim : List Int) (a : NpyArray) (st : Int) (rep : List Frame)
    (v : List Int) (hst : st ≠ SAI__OK) (hg : env.datGet self typ ndim tdim = ⟨st, v, rep⟩) :
    hds.pydat_get_read env w0 SAI__OK self typ ndim tdim (some a) =
      ⟨(raiseHDSException env
        ⟨w0.calls ++ [Call.datGet self typ ndim tdim], w0.ems ++ rep, w0.errLevel, w0.pyerr⟩
        st).world, PyRet.null⟩ := by
  simp only [hds.pydat_get_read, hg]
  simp [World.invoke, hst]

/-- The world that `pydat_get` of `hds.c` reaches the type dispatch with. -/
theorem hds_get_dispatch (env : Env) (w : World) (self : HDSLoc)
    (hs : (env.datStruc self).status = SAI__OK) (hv : (env.datStruc self).value = 0)
    (ht : (env.datType self).status = SAI__OK) (hsh : (env.datShape self 7).status = SAI__OK)
    (typ : String) (hty : (env.datType self).value = typ) :
    hds.pydat_get env w self =
      (let ndim := (env.datShape self 7).value.ndim
       let tdim := (env.datShape self 7).value.dim
       let rdim := reverseDims ndim tdim
       let w3 : World := ⟨w.calls ++ [Call.errBegin] ++
         [Call.datStruc self, Call.datType self, Call.datShape self 7], w.ems, w.errLevel + 1,
         w.pyerr⟩
       if typ = "_INTEGER" ∨ typ = "_LOGICAL" then
         hds.pydat_get_read env w3 SAI__OK self typ ndim tdim (hds.newArray env rdim NpyType.NPY_INT 4)
       else if typ = "_REAL" then
         hds.pydat_get_read env w3 SAI__OK self typ ndim tdim
           (hds.newArray env rdim NpyType.NPY_FLOAT 4)
       else if typ = "_DOUBLE" then
         hds.pydat_get_read env w3 SAI__OK self typ ndim tdim
           (hds.newArray env rdim NpyType.NPY_DOUBLE 8)
       else if strncmpEq typ "_CHAR" 5 = true then
         let q4 := w3.invoke SAI__OK (Call.datLen self) (env.datLen self) 0
         if q4.2.1 ≠ SAI__OK then ⟨(raiseHDSException env q4.1 q4.2.1).world, PyRet.null⟩
         else
           hds.pydat_get_read env q4.1 q4.2.1 self typ ndim tdim
             (hds.newArray env rdim NpyType.NPY_STRING q4.2.2)
       else if typ = "_WORD" then
         hds.pydat_get_read env w3 SAI__OK self typ ndim tdim
           (hds.newArray env rdim NpyType.NPY_SHORT 2)
       else if typ = "_UWORD" then
         hds.pydat_get_read env w3 SAI__OK self typ ndim tdim
           (hds.newArray env rdim NpyType.NPY_USHORT 2)
       else if typ = "_BYTE" then
         hds.pydat_get_read env w3 SAI__OK self typ ndim tdim
           (hds.newArray env rdim NpyType.NPY_BYTE 1)
       else if typ = "_UBYTE" then
         hds.pydat_get_read env w3 SAI__OK self typ ndim tdim
           (hds.newArray env rdim NpyType.NPY_UBYTE 1)
       else
         ⟨w3.setErr PyExc.PyExc_IOError "dat_get: encountered an unimplemented type",
           PyRet.null⟩) := by
  simp only [hds.pydat_get, invoke_ok _ _ _ _ hs, invoke_ok _ _ _ _ ht,
    invoke_ok _ _ _ _ hsh, raiseHDSException_ok, hv, errBegin, hty]
  simp only [ne_eq, not_true_eq_false, if_false, List.append_assoc, List.cons_append,
    List.nil_append]
/-- What `pydat_get` of `hds.c` does when `datLen` fails. -/
theorem hds_get_fails_len (env : Env) (w : World) (self : HDSLoc) (st : Int) (rep : List Frame)
    (v : Nat) (hst : st ≠ SAI__OK)
    (hs : (env.datStruc self).status = SAI__OK) (hv : (env.datStruc self).value = 0)
    (ht : (env.datType self).status = SAI__OK) (hsh : (env.datShape self 7).status = SAI__OK)
    (hc : strncmpEq (env.datType self).value "_CHAR" 5 = true)
    (hg : env.datLen self = ⟨st, v, rep⟩) :
    hds.pydat_get env w self =
      ⟨(raiseHDSException env
        ⟨w.calls ++ [Call.errBegin] ++
          [Call.datStruc self, Call.datType self, Call.datShape self 7, Call.datLen self],
          w.ems ++ rep, w.errLevel + 1, w.pyerr⟩ st).world, PyRet.null⟩ := by
  obtain ⟨h1, h2, h3, h4, -⟩ := char_tag_ne _ hc
  rw [hds_get_dispatch env w self hs hv ht hsh _ rfl]
  simp only [h1, h2, h3, h4, hc, or_self, if_false, if_true, hg]
  simp [World.invoke, hst]

/-- What `pydat_get` of `hds.c` does when `datGet` fails. -/
theorem hds_get_fails_get (env : Env) (w : World) (self : HDSLoc) (st : Int) (rep : List Frame)
    (v : List Int) (hst : st ≠ SAI__OK)
    (hs : (env.datStruc self).status = SAI__OK) (hv : (env.datStruc self).value = 0)
    (ht : (env.datType self).status = SAI__OK) (hsh : (env.datShape self 7).status = SAI__OK)
    (hty : (env.datType self).value = "_INTEGER" ∨ (env.datType self).value = "_LOGICAL" ∨
      (env.datType self).value = "_REAL" ∨ (env.datType self).value = "_DOUBLE" ∨
      (env.datType self).value = "_WORD" ∨ (env.datType self).value = "_UWORD" ∨
      (env.datType self).value = "_BYTE" ∨ (env.datType self).value = "_UBYTE" ∨
      (strncmpEq (env.datType self).value "_CHAR" 5 = true ∧
        (env.datLen self).status = SAI__OK))
    (ha : env.npyAlloc (reverseDims (env.datShape self 7).value.ndim
      (env.datShape self 7).value.dim) = true)
    (hg : env.datGet self (env.datType self).value (env.datShape self 7).value.ndim
      (env.datShape self 7).value.dim = ⟨st, v, rep⟩) :
    ∃ mid, (∀ c ∈ mid, c ≠ Call.errBegin ∧ c ≠ Call.errLoad ∧ c ≠ Call.errEnd) ∧
    hds.pydat_get env w self =
      ⟨(raiseHDSException env
        ⟨w.calls ++ [Call.errBegin] ++ mid, w.ems ++ rep, w.errLevel + 1, w.pyerr⟩ st).world,
        PyRet.null⟩ := by
  rw [hds_get_dispatch env w self hs hv ht hsh _ rfl]
  rcases hty with h | h | h | h | h | h | h | h | ⟨hc, hl⟩
  rotate_right
  · obtain ⟨h1, h2, h3, h4, -⟩ := char_tag_ne _ hc
    refine ⟨[Call.datStruc self, Call.datType self, Call.datShape self 7, Call.datLen self,
      Call.datGet self (env.datType self).value (env.datShape self 7).value.ndim
        (env.datShape self 7).value.dim], by simp, ?_⟩
    simp only [h1, h2, h3, h4, hc, or_self, if_false, if_true, invoke_ok _ _ _ _ hl,
      hds.newArray, ha, ne_eq, not_true_eq_false]
    rw [hds_get_read_fails env _ self _ _ _ _ st rep v hst hg]
    simp
  all_goals
    refine ⟨[Call.datStruc self, Call.datType self, Call.datShape self 7,
      Call.datGet self (env.datType self).value (env.datShape self 7).value.ndim
        (env.datShape self 7).value.dim], by simp, ?_⟩
    rw [h] at hg ⊢
    simp only [hds.newArray, ha, if_true]
    simp only [String.reduceEq, or_false, or_true, if_true, if_false, or_self]
    try simp only [show strncmpEq "_WORD" "_CHAR" 5 = false from by decide,
      show strncmpEq "_UWORD" "_CHAR" 5 = false from by decide,
      show strncmpEq "_BYTE" "_CHAR" 5 = false from by decide,
      show strncmpEq "_UBYTE" "_CHAR" 5 = false from by decide, Bool.false_eq_true, if_false]
    rw [hds_get_read_fails env _ self _ _ _ _ st rep v hst hg]
    simp
/-- C24, counterexample: `find`, `index` and `cell` of the ndf module call the
collaborator without `errBegin` and without a flush.  When the call fails
they return `NULL` with no error set, and the message stays on the stack. -/
theorem ndf_failure_is_not_bracketed :
    ndf.pydat_find failingStore World.init 1 "NOPE" =
      ⟨⟨[Call.datFind 1 "NOPE"], [objectNotFound], 0, none⟩, PyRet.null⟩ ∧
    ndf.pydat_index failingStore World.init 1 0 =
      ⟨⟨[Call.datIndex 1 1], [objectNotFound], 0, none⟩, PyRet.null⟩ ∧
    ndf.pydat_cell failingStore World.init 1 (some [0]) =
      ⟨⟨[Call.datCell 1 1 [1]], [objectNotFound], 0, none⟩, PyRet.null⟩ := by
  decide

/-- C24, amended: let the stack hold error frames only, and let a collaborator
call fail with the status `st` and the error frames `rep`.  Every operation
of the hds module (`annul`, `cell`, `index`, `find`, `get` at each of its
five calls, `name`, `ncomp`, `shape`, `state`, `struc`, `type`, `valid`,
`new`, `put` and `putc` once their value is converted) is bracketed: it
starts with `errBegin`, returns `NULL`, leaves exactly the error of the
category of `st` set, whose message holds every pending message, and ends
with the stack drained by `errLoad` and one `errEnd`, at the nesting depth it
started from.  The three operations `find`, `index` and `cell` of the ndf
module make the call alone: they return `NULL`, set no error and leave the
messages on the stack. -/
theorem hds_failures_are_bracketed (env : Env) (w : World) (self : HDSLoc) (st : Int)
    (rep : List Frame) (out : PyOut)
    (hw : ∀ f ∈ w.ems, f.status ≠ SAI__OK) (hst : st ≠ SAI__OK)
    (hrep : ∀ f ∈ rep, f.status ≠ SAI__OK) :
    (((∃ v, env.datAnnul (w.calls ++ [Call.errBegin]) self = ⟨st, v, rep⟩) ∧
        out = hds.pydat_annul env w self) ∨
      (∃ sdata, (∃ v, env.datCell self sdata.length (cellSubscripts sdata) = ⟨st, v, rep⟩) ∧
        out = hds.pydat_cell env w self (some sdata)) ∨
      (∃ index, (∃ v, env.datIndex self (wrapInt (index + 1)) = ⟨st, v, rep⟩) ∧
        out = hds.pydat_index env w self index) ∨
      (∃ name, (∃ v, env.datFind self name = ⟨st, v, rep⟩) ∧
        out = hds.pydat_find env w self name) ∨
      ((∃ v, env.datName self = ⟨st, v, rep⟩) ∧ out = hds.pydat_name env w self) ∨
      ((∃ v, env.datNcomp self = ⟨st, v, rep⟩) ∧ out = hds.pydat_ncomp env w self) ∨
      ((∃ v, env.datShape self 7 = ⟨st, v, rep⟩) ∧ out = hds.pydat_shape env w self) ∨
      ((∃ v, env.datState self = ⟨st, v, rep⟩) ∧ out = hds.pydat_state env w self) ∨
      ((∃ v, env.datStruc self = ⟨st, v, rep⟩) ∧ out = hds.pydat_struc env w self) ∨
      ((∃ v, env.datType self = ⟨st, v, rep⟩) ∧ out = hds.pydat_type env w self) ∨
      ((∃ v, env.datValid (w.calls ++ [Call.errBegin]) self = ⟨st, v, rep⟩) ∧
        out = hds.pydat_valid env w self) ∨
      (∃ name type ndim dimobj, checkHDStype type ≠ 0 ∧
        (∃ v, (if ndim > 0 then env.datNew self name type ndim dimobj
          else env.datNew self name type 0 []) = ⟨st, v, rep⟩) ∧
        out = hds.pydat_new env w self name type ndim dimobj) ∨
      (∃ type ndim dimobj value t npyval, checkHDStype type ≠ 0 ∧ putTarget type = some t ∧
        putConvert env value t = some npyval ∧
        (∃ v, (if ndim > 0 then env.datPut self type ndim dimobj npyval
          else env.datPut self type 0 [] npyval) = ⟨st, v, rep⟩) ∧
        out = hds.pydat_put env w self type ndim dimobj value) ∨
      (∃ strobj strlen npystr,
        PyArray_FROM_OTF env strobj NpyType.NPY_STRING true = some npystr ∧
        (∃ v, env.datPutC self npystr strlen = ⟨st, v, rep⟩) ∧
        out = hds.pydat_putc env w self strobj strlen) ∨
      ((∃ v, env.datStruc self = ⟨st, v, rep⟩) ∧ out = hds.pydat_get env w self) ∨
      ((env.datStruc self).status = SAI__OK ∧ (env.datStruc self).value = 0 ∧
        (∃ v, env.datType self = ⟨st, v, rep⟩) ∧ out = hds.pydat_get env w self) ∨
      ((env.datStruc self).status = SAI__OK ∧ (env.datStruc self).value = 0 ∧
        (env.datType self).status = SAI__OK ∧
        (∃ v, env.datShape self 7 = ⟨st, v, rep⟩) ∧ out = hds.pydat_get env w self) ∨
      ((env.datStruc self).status = SAI__OK ∧ (env.datStruc self).value = 0 ∧
        (env.datType self).status = SAI__OK ∧ (env.datShape self 7).status = SAI__OK ∧
        strncmpEq (env.datType self).value "_CHAR" 5 = true ∧
        (∃ v, env.datLen self = ⟨st, v, rep⟩) ∧ out = hds.pydat_get env w self) ∨
      ((env.datStruc self).status = SAI__OK ∧ (env.datStruc self).value = 0 ∧
        (env.datType self).status = SAI__OK ∧ (env.datShape self 7).status = SAI__OK ∧
        ((env.datType self).value = "_INTEGER" ∨ (env.datType self).value = "_LOGICAL" ∨
          (env.datType self).value = "_REAL" ∨ (env.datType self).value = "_DOUBLE" ∨
          (env.datType self).value = "_WORD" ∨ (env.datType self).value = "_UWORD" ∨
          (env.datType self).value = "_BYTE" ∨ (env.datType self).value = "_UBYTE" ∨
          (strncmpEq (env.datType self).value "_CHAR" 5 = true ∧
            (env.datLen self).status = SAI__OK)) ∧
        env.npyAlloc (reverseDims (env.datShape self 7).value.ndim
          (env.datShape self 7).value.dim) = true ∧
        (∃ v, env.datGet self (env.datType self).value (env.datShape self 7).value.ndim
          (env.datShape self 7).value.dim = ⟨st, v, rep⟩) ∧
        out = hds.pydat_get env w self) →
      out.ret = PyRet.null ∧
      out.world.pyerr =
        some ⟨if st = env.DAT__FILNF then PyExc.PyExc_IOError else PyExc.StarlinkHDSError,
          String.join ((w.ems ++ rep).map fun f => f.msg ++ "\n")⟩ ∧
      out.world.ems = [] ∧
      out.world.errLevel = w.errLevel ∧
      ∃ mid, out.world.calls = w.calls ++ [Call.errBegin] ++ mid ++
          List.replicate (w.ems.length + rep.length + 1) Call.errLoad ++ [Call.errEnd] ∧
        ∀ c ∈ mid, c ≠ Call.errBegin ∧ c ≠ Call.errLoad ∧ c ≠ Call.errEnd) ∧
    (((∃ name, (∃ v, env.datFind self name = ⟨st, v, rep⟩) ∧
        out = ndf.pydat_find env w self name) ∨
      (∃ index, (∃ v, env.datIndex self (wrapInt (index + 1)) = ⟨st, v, rep⟩) ∧
        out = ndf.pydat_index env w self index) ∨
      (∃ sdata, (∃ v, env.datCell self sdata.length (cellSubscripts sdata) = ⟨st, v, rep⟩) ∧
        out = ndf.pydat_cell env w self (some sdata))) →
      out.ret = PyRet.null ∧
      out.world.pyerr = w.pyerr ∧
      out.world.ems = w.ems ++ rep ∧
      out.world.errLevel = w.errLevel ∧
      ∃ c, out.world.calls = w.calls ++ [c] ∧
        c ≠ Call.errBegin ∧ c ≠ Call.errLoad ∧ c ≠ Call.errEnd) := by
  constructor
  · intro h
    have key : ∃ mid, (∀ c ∈ mid, c ≠ Call.errBegin ∧ c ≠ Call.errLoad ∧ c ≠ Call.errEnd) ∧
        out = ⟨(raiseHDSException env
          ⟨w.calls ++ [Call.errBegin] ++ mid, w.ems ++ rep, w.errLevel + 1, w.pyerr⟩ st).world,
          PyRet.null⟩ := by
      rcases h with ⟨⟨v, hv⟩, rfl⟩ | ⟨sdata, ⟨v, hv⟩, rfl⟩ | ⟨index, ⟨v, hv⟩, rfl⟩ |
        ⟨name, ⟨v, hv⟩, rfl⟩ | ⟨⟨v, hv⟩, rfl⟩ | ⟨⟨v, hv⟩, rfl⟩ | ⟨⟨v, hv⟩, rfl⟩ |
        ⟨⟨v, hv⟩, rfl⟩ | ⟨⟨v, hv⟩, rfl⟩ | ⟨⟨v, hv⟩, rfl⟩ | ⟨⟨v, hv⟩, rfl⟩ |
        ⟨name, type, ndim, dimobj, hck, ⟨v, hv⟩, rfl⟩ |
        ⟨type, ndim, dimobj, value, t, npyval, hck, hpt, hcv, ⟨v, hv⟩, rfl⟩ |
        ⟨strobj, strlen, npystr, hcv, ⟨v, hv⟩, rfl⟩ | ⟨⟨v, hv⟩, rfl⟩ | ⟨hs, hz, ⟨v, hv⟩, rfl⟩ |
        ⟨hs, hz, ht, ⟨v, hv⟩, rfl⟩ | ⟨hs, hz, ht, hsh, hc, ⟨v, hv⟩, rfl⟩ |
        ⟨hs, hz, ht, hsh, hty, ha, ⟨v, hv⟩, rfl⟩
      · refine ⟨[Call.datAnnul self], by simp, ?_⟩
        simp only [hds.pydat_annul, errBegin, hv]
        simp [World.invoke, hst, raiseHDSException_bad]
      · refine ⟨[Call.datCell self sdata.length (cellSubscripts sdata)], by simp, ?_⟩
        simp only [hds.pydat_cell, errBegin, hv]
        simp [World.invoke, hst]
      · refine ⟨[Call.datIndex self (wrapInt (index + 1))], by simp, ?_⟩
        simp only [hds.pydat_index, errBegin, hv]
        simp [World.invoke, hst, raiseHDSException_bad]
      · refine ⟨[Call.datFind self name], by simp, ?_⟩
        simp only [hds.pydat_find, errBegin, hv]
        simp [World.invoke, hst, raiseHDSException_bad]
      · refine ⟨[Call.datName self], by simp, ?_⟩
        simp only [hds.pydat_name, errBegin, hv]
        simp [World.invoke, hst, raiseHDSException_bad]
      · refine ⟨[Call.datNcomp self], by simp, ?_⟩
        simp only [hds.pydat_ncomp, errBegin, hv]
        simp [World.invoke, hst, raiseHDSException_bad]
      · refine ⟨[Call.datShape self 7], by simp, ?_⟩
        simp only [hds.pydat_shape, errBegin, hv]
        simp [World.invoke, hst, raiseHDSException_bad]
      · refine ⟨[Call.datState self], by simp, ?_⟩
        simp only [hds.pydat_state, errBegin, hv]
        simp [World.invoke, hst, raiseHDSException_bad]
      · refine ⟨[Call.datStruc self], by simp, ?_⟩
        simp only [hds.pydat_struc, errBegin, hv]
        simp [World.invoke, hst, raiseHDSException_bad]
      · refine ⟨[Call.datType self], by simp, ?_⟩
        simp only [hds.pydat_type, errBegin, hv]
        simp [World.invoke, hst, raiseHDSException_bad]
      · refine ⟨[Call.datValid self], by simp, ?_⟩
        simp only [hds.pydat_valid, errBegin, hv]
        simp [World.invoke, hst, raiseHDSException_bad]
      · by_cases hn : ndim > 0
        · rw [if_pos hn] at hv
          refine ⟨[Call.datNew self name type ndim dimobj], by simp, ?_⟩
          simp only [hds.pydat_new, errBegin, if_neg hck, if_pos hn, hv]
          simp [World.invoke, hst, raiseHDSException_bad]
        · rw [if_neg hn] at hv
          refine ⟨[Call.datNew self name type 0 []], by simp, ?_⟩
          simp only [hds.pydat_new, errBegin, if_neg hck, if_neg hn, hv]
          simp [World.invoke, hst, raiseHDSException_bad]
      · by_cases hn : ndim > 0
        · rw [if_pos hn] at hv
          refine ⟨[Call.datPut self type ndim dimobj npyval], by simp, ?_⟩
          simp only [hds.pydat_put, errBegin, if_neg hck, hpt, hcv, if_pos hn, hv]
          simp [World.invoke, hst, raiseHDSException_bad]
        · rw [if_neg hn] at hv
          refine ⟨[Call.datPut self type 0 [] npyval], by simp, ?_⟩
          simp only [hds.pydat_put, errBegin, if_neg hck, hpt, hcv, if_neg hn, hv]
          simp [World.invoke, hst, raiseHDSException_bad]
      · refine ⟨[Call.datPutC self npystr strlen], by simp, ?_⟩
        simp only [hds.pydat_putc, errBegin, hcv, hv]
        simp [World.invoke, hst, raiseHDSException_bad]
      · refine ⟨[Call.datStruc self], by simp, ?_⟩
        simp only [hds.pydat_get, errBegin, hv]
        simp [World.invoke, hst, raiseHDSException_bad]
      · refine ⟨[Call.datStruc self, Call.datType self, Call.datShape self 7], by simp, ?_⟩
        simp only [hds.pydat_get, errBegin, invoke_ok _ _ _ _ hs, raiseHDSException_ok, hz, hv]
        simp [World.invoke, hst, raiseHDSException_bad]
      · refine ⟨[Call.datStruc self, Call.datType self, Call.datShape self 7], by simp, ?_⟩
        simp only [hds.pydat_get, errBegin, invoke_ok _ _ _ _ hs, invoke_ok _ _ _ _ ht,
          raiseHDSException_ok, hz, hv]
        simp [World.invoke, hst, raiseHDSException_bad]
      · exact ⟨_, by simp, hds_get_fails_len env w self st rep v hst hs hz ht hsh hc hv⟩
      · exact hds_get_fails_get env w self st rep v hst hs hz ht hsh hty ha hv
    obtain ⟨mid, hmid, rfl⟩ := key
    rw [flush_after_failure env w mid st rep w.pyerr hw hst hrep]
    exact ⟨rfl, rfl, rfl, rfl, mid, rfl, hmid⟩
  · rintro (⟨name, ⟨v, hv⟩, rfl⟩ | ⟨index, ⟨v, hv⟩, rfl⟩ | ⟨sdata, ⟨v, hv⟩, rfl⟩)
    · simp only [ndf.pydat_find, hv]
      simp [World.invoke, hst]
    · simp only [ndf.pydat_index, hv]
      simp [World.invoke, hst]
    · simp only [ndf.pydat_cell, hv]
      simp [World.invoke, hst]

/-- C24, at a store in which no component is found: `find` of the hds module
on an empty stack. -/
theorem hds_failures_are_bracketed_witness :
    (hds.pydat_find failingStore World.init 1 "NOPE").ret = PyRet.null ∧
    (hds.pydat_find failingStore World.init 1 "NOPE").world.pyerr =
      some ⟨PyExc.StarlinkHDSError, "Object not found\n"⟩ ∧
    (hds.pydat_find failingStore World.init 1 "NOPE").world.ems = [] ∧
    (hds.pydat_find failingStore World.init 1 "NOPE").world.errLevel = 0 ∧
    (hds.pydat_find failingStore World.init 1 "NOPE").world.calls =
      [Call.errBegin, Call.datFind 1 "NOPE", Call.errLoad, Call.errLoad, Call.errEnd] := by
  have h := (hds_failures_are_bracketed failingStore World.init 1 147358547 [objectNotFound]
    (hds.pydat_find failingStore World.init 1 "NOPE") (by decide) (by decide) (by decide)).1
    (Or.inr (Or.inr (Or.inr (Or.inl ⟨"NOPE", ⟨0, rfl⟩, rfl⟩))))
  refine ⟨h.1, ?_, h.2.2.1, h.2.2.2.1, by decide⟩
  rw [h.2.1]
  decide

/-- C26, counterexample: on the sample store, whose locators stay valid
whatever is called, a locator found after `ndf_begin` still reports valid
after `ndf_end`, and a region mapped in between is never unmapped: `ndf_end`
makes the one call `ndfEnd`. -/
theorem end_releases_nothing_itself :
    (ndf.pydat_find sampleEnv (ndf.pyndf_begin sampleEnv World.init).world 1 "MORE").ret =
      PyRet.cobject ⟨2, 2⟩ ∧
    (ndf.pydat_valid sampleEnv
      (ndf.pyndf_end sampleEnv
        (ndf.pyndf_map sampleEnv
          (ndf.pydat_find sampleEnv (ndf.pyndf_begin sampleEnv World.init).world 1 "MORE").world
          1 "DATA" "_REAL" "READ").world).world 2) =
      ⟨⟨[Call.ndfBegin, Call.datFind 1 "MORE", Call.ndfMap 1 "DATA" "_REAL" "READ", Call.ndfEnd,
        Call.datValid 2], [], 0, none⟩, PyRet.int 1⟩ := by
  decide

/-- C26, amended: `ndf_end` makes one call, `ndfEnd`, and returns `None`
with no error set, whatever the status that `ndfEnd` reports; it releases
no locator and unmaps no region itself.  What `valid` answers for a locator
afterwards is the answer of `datValid`. -/
theorem end_forwards_to_ndfEnd (env : Env) (w : World) (loc : HDSLoc)
    (hv : (env.datValid (w.calls ++ [Call.ndfEnd]) loc).status = SAI__OK) :
    (ndf.pyndf_end env w).ret = PyRet.none ∧
    (ndf.pyndf_end env w).world.calls = w.calls ++ [Call.ndfEnd] ∧
    (ndf.pyndf_end env w).world.pyerr = w.pyerr ∧
    (ndf.pyndf_end env w).world.errLevel = w.errLevel ∧
    (ndf.pydat_valid env (ndf.pyndf_end env w).world loc).ret =
      PyRet.int (env.datValid (w.calls ++ [Call.ndfEnd]) loc).value ∧
    (ndf.pydat_valid env (ndf.pyndf_end env w).world loc).world.calls =
      w.calls ++ [Call.ndfEnd, Call.datValid loc] := by
  have hc : (ndf.pyndf_end env w).world.calls = w.calls ++ [Call.ndfEnd] := by
    simp only [ndf.pyndf_end]
    rw [invoke_calls]
  refine ⟨rfl, hc, ?_, ?_, ?_, ?_⟩
  · simp only [ndf.pyndf_end, World.invoke]
    split
    · rfl
    · split <;> rfl
  · simp only [ndf.pyndf_end, World.invoke]
    split
    · rfl
    · split <;> rfl
  · simp only [ndf.pydat_valid, hc, invoke_ok _ _ _ _ hv]
    simp
  · simp only [ndf.pydat_valid]
    split <;> (rw [invoke_calls, hc]; simp)

/-- C26, at a store whose locators become invalid with `ndfEnd`: the locator
found after `ndf_begin` reports invalid after `ndf_end`; and at a store whose
`ndfEnd` fails, where `ndf_end` returns `None` all the same. -/
theorem end_forwards_to_ndfEnd_witness :
    (ndf.pydat_valid scopeStore
      (ndf.pyndf_end scopeStore
        (ndf.pydat_find scopeStore (ndf.pyndf_begin scopeStore World.init).world 1
          "MORE").world).world 2).ret = PyRet.int 0 ∧
    (ndf.pydat_valid scopeStore
      (ndf.pydat_find scopeStore (ndf.pyndf_begin scopeStore World.init).world 1
        "MORE").world 2).ret = PyRet.int 1 ∧
    ndf.pyndf_end endFailsStore World.init =
      ⟨⟨[Call.ndfEnd], [⟨"NDF_END_ERR", "ndfEnd failed", 13, SAI__ERROR⟩], 0, none⟩,
        PyRet.none⟩ := by
  have h := end_forwards_to_ndfEnd scopeStore
    (ndf.pydat_find scopeStore (ndf.pyndf_begin scopeStore World.init).world 1 "MORE").world 2
    rfl
  refine ⟨?_, by decide, by decide⟩
  rw [h.2.2.2.2.1]
  decide

end PyNdf
